import Mathlib

/-!
# D*+ polarization analysis task: selection, angular observables, histogram routing

Shallow embedding of `AliAnalysisTaskSEDstarPolarization`
(`PWGHF/vertexingHF/vHFML/AliAnalysisTaskSEDstarPolarization.cxx`).

Floating-point quantities are taken over an ordered field `K`; the library
functions `TMath::Sqrt`, `TMath::ACos`, `TMath::ATan2` are supplied through a
`TMath K` record, so that every definition is executable over `ℚ` and can be
read over `ℝ` with the exact functions.
-/

namespace DstarPolarization

/-! ## Scalars and vectors -/

/-- The `TMath` functions the task calls, over the scalar type `K`. -/
structure TMath (K : Type) where
  Sqrt : K → K
  ACos : K → K
  ATan2 : K → K → K

/-- Three-vector `ROOT::Math::XYZVector`. -/
structure XYZVector (K : Type) where
  X : K
  Y : K
  Z : K

namespace XYZVector

variable {K : Type} [LinearOrderedField K]

/-- Scalar product `a.Dot(b)`. -/
def Dot (a b : XYZVector K) : K := a.X * b.X + a.Y * b.Y + a.Z * b.Z

/-- Squared magnitude `a.Mag2()`. -/
def Mag2 (a : XYZVector K) : K := a.X * a.X + a.Y * a.Y + a.Z * a.Z

end XYZVector

section Observables

variable {K : Type} [LinearOrderedField K]

/-- Transverse momentum `Pt()` of a momentum `(px, py, pz)`. -/
def Pt (M : TMath K) (px py : K) : K := M.Sqrt (px * px + py * py)

/-- Momentum magnitude `P()` of a momentum `(px, py, pz)`. -/
def P (M : TMath K) (px py pz : K) : K := M.Sqrt (px * px + py * py + pz * pz)

/-- Axis `normalVec = (Py / pt, -Px / pt, 0)` (lines 299, 488). -/
def normalVec (px py pt : K) : XYZVector K := ⟨py / pt, -px / pt, 0⟩

/-- Axis `helicityVec = (Px / p, Py / p, Pz / p)` (lines 300, 489). -/
def helicityVec (px py pz p : K) : XYZVector K := ⟨px / p, py / p, pz / p⟩

/-- Axis `beamVec = (0, 0, 1)` (lines 301, 490). -/
def beamVec : XYZVector K := ⟨0, 0, 1⟩

/-- The value `TMath::Abs(axis.Dot(v) / TMath::Sqrt(v.Mag2()))` (lines 305-307, 494-496). -/
def cosThetaStar (M : TMath K) (axis v : XYZVector K) : K :=
  |axis.Dot v / M.Sqrt v.Mag2|

/-- The value `TMath::ACos(beamVec.Dot(v) / TMath::Sqrt(v.Mag2()))` (lines 308, 497). -/
def thetaStar (M : TMath K) (axis v : XYZVector K) : K :=
  M.ACos (axis.Dot v / M.Sqrt v.Mag2)

/-- The value `TMath::ATan2(v.Y(), v.X())` (lines 309, 498). -/
def phiStar (M : TMath K) (v : XYZVector K) : K := M.ATan2 v.Y v.X

/-- The five angular observables of one candidate or generated particle. -/
structure AngularObs (K : Type) where
  cosThetaStarProd : K
  cosThetaStarHelicity : K
  cosThetaStarBeam : K
  thetaStarBeam : K
  phiStarBeam : K

/-- Lines 299-309 (reconstruction) and 488-498 (generation): the observables from the
mother momentum `(px, py, pz)`, its `pt` and `p`, and the probe vector `threeVecPiCM`. -/
def angularObs (M : TMath K) (px py pz pt p : K) (threeVecPiCM : XYZVector K) : AngularObs K :=
  { cosThetaStarProd := cosThetaStar M (normalVec px py pt) threeVecPiCM
    cosThetaStarHelicity := cosThetaStar M (helicityVec px py pz p) threeVecPiCM
    cosThetaStarBeam := cosThetaStar M beamVec threeVecPiCM
    thetaStarBeam := thetaStar M beamVec threeVecPiCM
    phiStarBeam := phiStar M threeVecPiCM }

end Observables

/-! ## Lorentz vectors and the rest-frame boost (ROOT `GenVector`) -/

/-- Four-vector `ROOT::Math::PxPyPzMVector`: momentum components and mass. -/
structure PxPyPzMVector (K : Type) where
  Px : K
  Py : K
  Pz : K
  M : K

/-- Four-vector in `(x, y, z, t)` coordinates, the form `Boost` works on. -/
structure PxPyPzEVector (K : Type) where
  Px : K
  Py : K
  Pz : K
  E : K

section Lorentz

variable {K : Type} [LinearOrderedField K]

/-- Squared momentum `P2()`. -/
def PxPyPzMVector.P2 (v : PxPyPzMVector K) : K := v.Px * v.Px + v.Py * v.Py + v.Pz * v.Pz

/-- Squared mass `M2()`, negative for a negative mass parameter. -/
def PxPyPzMVector.M2 (v : PxPyPzMVector K) : K := if v.M ≥ 0 then v.M * v.M else -(v.M * v.M)

/-- Energy squared `E2()`, clipped at zero. -/
def PxPyPzMVector.E2 (v : PxPyPzMVector K) : K := if v.P2 + v.M2 > 0 then v.P2 + v.M2 else 0

/-- Energy `E()`. -/
def PxPyPzMVector.E (tm : TMath K) (v : PxPyPzMVector K) : K := tm.Sqrt v.E2

/-- Spatial part `Vect()`. -/
def PxPyPzMVector.Vect (v : PxPyPzMVector K) : XYZVector K := ⟨v.Px, v.Py, v.Pz⟩

/-- Conversion to `(x, y, z, t)` coordinates. -/
def PxPyPzMVector.toE (tm : TMath K) (v : PxPyPzMVector K) : PxPyPzEVector K :=
  ⟨v.Px, v.Py, v.Pz, v.E tm⟩

/-- Conversion back from `(x, y, z, t)` coordinates: the mass is `sqrt(t² - p²)`, with the
sign of the radicand carried by the mass. -/
def PxPyPzEVector.toM (tm : TMath K) (v : PxPyPzEVector K) : PxPyPzMVector K :=
  let m2 := v.E * v.E - v.Px * v.Px - v.Py * v.Py - v.Pz * v.Pz
  ⟨v.Px, v.Py, v.Pz, if m2 ≥ 0 then tm.Sqrt m2 else -tm.Sqrt (-m2)⟩

/-- Sum `a + b` of two four-vectors: components and energies add. -/
def PxPyPzMVector.add (tm : TMath K) (a b : PxPyPzMVector K) : PxPyPzMVector K :=
  PxPyPzEVector.toM tm ⟨a.Px + b.Px, a.Py + b.Py, a.Pz + b.Pz, a.E tm + b.E tm⟩

/-- The velocity `BoostToCM()` of the boost to the rest frame: `-Vect() / E()`, and the
null vector for a vector with no energy. -/
def PxPyPzMVector.BoostToCM (tm : TMath K) (v : PxPyPzMVector K) : XYZVector K :=
  if v.E tm = 0 then ⟨0, 0, 0⟩ else ⟨-v.Px / v.E tm, -v.Py / v.E tm, -v.Pz / v.E tm⟩

/-- Application `Boost(b)(v)` of the boost with velocity `b` to a four-vector, for
`b² < 1` (for `b² ≥ 1` ROOT reports an error; that case is not separated here). -/
def Boost (tm : TMath K) (b : XYZVector K) (v : PxPyPzMVector K) : PxPyPzMVector K :=
  let bp2 := b.X * b.X + b.Y * b.Y + b.Z * b.Z
  let gamma := 1 / tm.Sqrt (1 - bp2)
  let bgamma := gamma * gamma / (1 + gamma)
  let x := v.Px
  let y := v.Py
  let z := v.Pz
  let t := v.E tm
  PxPyPzEVector.toM tm
    ⟨(1 + bgamma * b.X * b.X) * x + bgamma * b.X * b.Y * y + bgamma * b.X * b.Z * z
        + gamma * b.X * t,
      bgamma * b.X * b.Y * x + (1 + bgamma * b.Y * b.Y) * y + bgamma * b.Y * b.Z * z
        + gamma * b.Y * t,
      bgamma * b.X * b.Z * x + bgamma * b.Y * b.Z * y + (1 + bgamma * b.Z * b.Z) * z
        + gamma * b.Z * t,
      gamma * b.X * x + gamma * b.Y * y + gamma * b.Z * z + gamma * t⟩

end Lorentz

/-! ## Data of one event -/

/-- Primary-vertex object `AliAODVertex`, identified by a tag. -/
structure AliAODVertex where
  tag : Nat
  deriving DecidableEq, Repr

/-- Detector track `AliAODTrack`, identified by a tag. -/
structure AliAODTrack where
  tag : Nat
  deriving DecidableEq, Repr

/-- The candidate `dStar` with its two-body daughter `dZeroDau`, as far as the task reads
or changes them. -/
structure Cand (K : Type) where
  /-- Values `dStar->Px()`, `Py()`, `Pz()` -/
  Px : K
  Py : K
  Pz : K
  /-- Momentum of `dStar->GetBachelor()` -/
  piPx : K
  piPy : K
  piPz : K
  /-- Momentum of `dStar->Get2Prong()` -/
  d0Px : K
  d0Py : K
  d0Pz : K
  /-- Value `dStar->DeltaInvMass()` -/
  DeltaInvMass : K
  /-- Value `dStar->Y(413)` -/
  Y : K
  /-- Value `dZeroDau->GetOwnPrimaryVtx()`, `none` for a null pointer -/
  ownPrimaryVtx : Option AliAODVertex

/-- Generated particle `AliAODMCParticle`. -/
structure AliAODMCParticle (K : Type) where
  PdgCode : Int
  Mother : Int
  DaughterFirst : Int
  Px : K
  Py : K
  Pz : K
  M : K
  Y : K
  Eta : K

/-- Element `arrayMC->At(i)`: `none` (a null pointer) outside the array. -/
def At {α : Type} (arr : List α) (i : Int) : Option α :=
  if 0 ≤ i then arr.get? i.toNat else none

/-- Which object a prong is asked of in `vHF->GetProng`. -/
inductive ProngOf where
  | dStar
  | dZeroDau
  deriving DecidableEq, Repr

/-- The data members of the task and the collaborators it calls (cut object `fRDCuts`,
`AliAnalysisVertexingHF`, `fMLResponse`, the event `fAOD`, the MC utilities), whose
code is outside this file: each is given by its answer. -/
structure Task (K : Type) where
  fReadMC : Bool
  fApplyML : Bool
  fFillAcceptanceLevel : Bool
  /-- Call `fAOD->GetPrimaryVertex()` -/
  GetPrimaryVertex : AliAODVertex
  /-- Call `vHF->GetProng(fAOD, cand, iprong)` -/
  GetProng : Cand K → ProngOf → Nat → Option AliAODTrack
  /-- Call `fRDCuts->PreSelect(arrDauTracks)` -/
  PreSelect : List AliAODTrack → Bool
  /-- Call `vHF->FillRecoCasc(fAOD, dStar, false)`, with the candidate as it leaves it -/
  FillRecoCasc : Cand K → Bool × Cand K
  /-- Call `fRDCuts->PtBin(pt)` -/
  PtBin : K → Int
  /-- Call `fRDCuts->IsSelected(dStar, AliRDHFCuts::kAll, fAOD)`, with the candidate as it leaves it -/
  IsSelected : Cand K → Int × Cand K
  /-- Call `fRDCuts->GetIsPrimaryWithoutDaughters()` -/
  GetIsPrimaryWithoutDaughters : Bool
  /-- Call `fRDCuts->RecalcOwnPrimaryVtx(dZeroDau, fAOD)`, with the candidate as it leaves it -/
  RecalcOwnPrimaryVtx : Cand K → Bool × Cand K
  /-- Call `fRDCuts->CleanOwnPrimaryVtx(dZeroDau, fAOD, origOwnVtx)` -/
  CleanOwnPrimaryVtx : Cand K → Option AliAODVertex → Cand K
  /-- Call `fMLResponse->IsSelectedMultiClass(modelPred, dStar, bfield, pidHF, 0)` -/
  IsSelectedMultiClass : Cand K → Bool
  /-- Call `dStar->MatchToMC(413, 421, pdgDstarDau, pdgD0Dau, arrayMC, false)` -/
  MatchToMC : Cand K → List (AliAODMCParticle K) → Int
  /-- Call `AliVertexingHFUtils::CheckOrigin(arrayMC, part, true)` -/
  CheckOrigin : List (AliAODMCParticle K) → AliAODMCParticle K → Int
  /-- Call `AliAnalysisUtils::IsParticleFromOutOfBunchPileupCollision(iPart, mcHeader, arrayMC)` -/
  IsParticleFromOutOfBunchPileupCollision : Nat → List (AliAODMCParticle K) → Bool
  /-- Call `AliVertexingHFUtils::CheckDstarDecay(arrayMC, mcPart, labDau)`: the decay code and
  the labels it writes over `labDau = {-1, -1, -1}` -/
  CheckDstarDecay : List (AliAODMCParticle K) → AliAODMCParticle K → Int × (Int × Int × Int)
  /-- Call `fRDCuts->IsInFiducialAcceptance(pt, y)` -/
  IsInFiducialAcceptance : K → K → Bool
  /-- Call `fRDCuts->GetMaxVtxZ()` -/
  GetMaxVtxZ : K
  /-- Value `TDatabasePDG::Instance()->GetParticle(211)->Mass()` -/
  massPi : K
  /-- Value `TDatabasePDG::Instance()->GetParticle(421)->Mass()` -/
  massD0 : K

/-- The multi-dimensional histograms of the task. -/
inductive Hist where
  | fnSparseReco (j : Nat)
  | fnSparseRecoThetaPhiStar (j : Nat)
  | fnSparseMC (j : Nat)
  | fnSparseMCThetaPhiStar (j : Nat)
  deriving DecidableEq, Repr

/-- One call `hist->Fill(vars)`. -/
structure Fill (K : Type) where
  hist : Hist
  vars : List K

/-- Number of fills a histogram received. -/
def nFills {K : Type} (h : Hist) (fills : List (Fill K)) : Nat :=
  (fills.filter (fun f => f.hist = h)).length

/-! ## Candidate selection (`IsCandidateSelected`, lines 346-436) -/

/-- Calls to collaborators made during the selection, as they appear in the source. -/
inductive Call where
  | GetProng (iDau : Nat)
  | PreSelect (arrDauTracks : List AliAODTrack)
  | FillRecoCasc
  | GetOwnPrimaryVtx
  | GetPrimaryVertex
  | SetOwnPrimaryVtx
  | UnsetOwnPrimaryVtx
  | Pt
  | PtBin
  | IsSelected
  | GetIsPrimaryWithoutDaughters
  | RecalcOwnPrimaryVtx
  | CleanOwnPrimaryVtx
  | GetPidHF
  | GetMagneticField
  | IsSelectedMultiClass
  deriving DecidableEq, Repr

/-- What the selection reads and writes: the candidate, the three reference arguments
`unsetVtx`, `recVtx`, `origOwnVtx`, the values given to `fHistNEvents->Fill`, and the
collaborator calls made, both in order. -/
structure SelState (K : Type) where
  cand : Cand K
  unsetVtx : Bool
  recVtx : Bool
  origOwnVtx : Option AliAODVertex
  fHistNEvents : List Nat
  calls : List Call

section Selection

variable {K : Type} [LinearOrderedField K]

/-- Record `fHistNEvents->Fill(bin)`. -/
def SelState.Fill (s : SelState K) (bin : Nat) : SelState K :=
  { s with fHistNEvents := s.fHistNEvents ++ [bin] }

/-- Record a collaborator call. -/
def SelState.call (s : SelState K) (c : Call) : SelState K :=
  { s with calls := s.calls ++ [c] }

/-- Method `AliAODRecoDecay::SetOwnPrimaryVtx(vtx)`: the daughter owns a copy of `vtx`. -/
def Cand.SetOwnPrimaryVtx (c : Cand K) (vtx : AliAODVertex) : Cand K :=
  { c with ownPrimaryVtx := some vtx }

/-- Method `AliAODRecoDecay::UnsetOwnPrimaryVtx()`: the daughter owns no vertex. -/
def Cand.UnsetOwnPrimaryVtx (c : Cand K) : Cand K :=
  { c with ownPrimaryVtx := none }

/-- Method `dZeroDau->UnsetOwnPrimaryVtx()` on the selection state. -/
def SelState.UnsetOwnPrimaryVtx (s : SelState K) : SelState K :=
  { s.call Call.UnsetOwnPrimaryVtx with cand := s.cand.UnsetOwnPrimaryVtx }

/-- Daughter-track loop of lines 357-364: each prong is asked for and the track is
dropped; `arrDauTracks` is not written. -/
def prongLoop (T : Task K) (s : SelState K) : SelState K :=
  (List.range 3).foldl
    (fun s iDau =>
      let _track : Option AliAODTrack :=
        if iDau = 0 then T.GetProng s.cand ProngOf.dStar iDau
        else T.GetProng s.cand ProngOf.dZeroDau (iDau - 1)
      s.call (Call.GetProng iDau))
    s

/-- Lines 421-435: the classifier overwrites the cut verdict when `fApplyML` is set. -/
def applyML (T : Task K) (isSelected : Int) (s : SelState K) : Int × SelState K :=
  if T.fApplyML then
    let s := s.call Call.GetPidHF
    let s := s.call Call.GetMagneticField
    let s := s.call Call.IsSelectedMultiClass
    let isMLsel := T.IsSelectedMultiClass s.cand
    if isMLsel then (1, s) else (0, s)
  else (isSelected, s)

/-- Lines 407-418: optional recomputation of the own primary vertex. -/
def recalcVtx (T : Task K) (s : SelState K) : SelState K :=
  let s := { s with recVtx := false, origOwnVtx := none }
  let s := s.call Call.GetIsPrimaryWithoutDaughters
  if T.GetIsPrimaryWithoutDaughters then
    let s := s.call Call.GetOwnPrimaryVtx
    let s := if s.cand.ownPrimaryVtx.isSome then
        { s.call Call.GetOwnPrimaryVtx with origOwnVtx := s.cand.ownPrimaryVtx }
      else s
    let s := s.call Call.RecalcOwnPrimaryVtx
    let r := T.RecalcOwnPrimaryVtx s.cand
    let s := { s with cand := r.2 }
    if r.1 then { s with recVtx := true }
    else
      let s := s.call Call.CleanOwnPrimaryVtx
      { s with cand := T.CleanOwnPrimaryVtx s.cand s.origOwnVtx }
  else s

/-- Lines 380-387: borrow the event primary vertex when the daughter owns none. -/
def associateVtx (T : Task K) (s : SelState K) : SelState K :=
  let s := { s with unsetVtx := false }
  let s := s.call Call.GetOwnPrimaryVtx
  if s.cand.ownPrimaryVtx.isNone then
    let s := s.call Call.GetPrimaryVertex
    let s := s.call Call.SetOwnPrimaryVtx
    let s := { s with cand := s.cand.SetOwnPrimaryVtx T.GetPrimaryVertex }
    { s with unsetVtx := true }
  else s

/-- Lines 389-436: pT-bin lookup, cut selection, optional vertex recomputation and
optional classifier. -/
def cutStages (M : TMath K) (T : Task K) (s : SelState K) : Int × SelState K :=
  let s := s.call Call.Pt
  let ptD := Pt M s.cand.Px s.cand.Py
  let s := s.call Call.PtBin
  let ptBin := T.PtBin ptD
  if ptBin < 0 then
    (0, if s.unsetVtx then s.UnsetOwnPrimaryVtx else s)
  else
    let s := s.call Call.IsSelected
    let r := T.IsSelected s.cand
    let s := { s with cand := r.2 }
    let isSelected := r.1
    if isSelected = 0 then
      (0, if s.unsetVtx then s.UnsetOwnPrimaryVtx else s)
    else
      let s := recalcVtx T s
      applyML T isSelected s

/-- Function `IsCandidateSelected(dStar, dZeroDau, vHF, unsetVtx, recVtx, origOwnVtx)`.
The three pointers are given by whether they are non-null; the result is the returned
value with the state left behind. -/
def IsCandidateSelected (M : TMath K) (T : Task K) (dStar dZeroDau vHF : Bool)
    (s : SelState K) : Int × SelState K :=
  if !dStar || !dZeroDau || !vHF then (0, s)
  else
    let s := s.Fill 11
    -- Preselection to speed up task
    let arrDauTracks : List AliAODTrack := []
    let s := prongLoop T s
    let s := s.call (Call.PreSelect arrDauTracks)
    if !T.PreSelect arrDauTracks then (0, s.Fill 15)
    else
      let s := s.call Call.FillRecoCasc
      let r := T.FillRecoCasc s.cand
      let s := { s with cand := r.2 }
      if !r.1 then (0, s.Fill 14)
      else
        let s := s.Fill 12
        let s := associateVtx T s
        cutStages M T s

end Selection

/-! ## Per-candidate analysis and histogram routing (`UserExec`, lines 244-340) -/

section Reco

variable {K : Type} [LinearOrderedField K]

/-- Lines 268-281: the matching label `labD` and the origin code `orig`. -/
def getMCTruth (T : Task K) (arrayMC : List (AliAODMCParticle K)) (c : Cand K) : Int × Int :=
  if T.fReadMC then
    let labD := T.MatchToMC c arrayMC
    match At arrayMC labD with
    | some partD => (labD, T.CheckOrigin arrayMC partD)
    | none => (labD, 0)
  else (-1, 0)

/-- Lines 289-303: the soft-pion momentum in the rest frame of the candidate. -/
def recoThreeVecPiCM (M : TMath K) (T : Task K) (c : Cand K) : XYZVector K :=
  let fourVecPi : PxPyPzMVector K := ⟨c.piPx, c.piPy, c.piPz, T.massPi⟩
  let fourVecD0 : PxPyPzMVector K := ⟨c.d0Px, c.d0Py, c.d0Pz, T.massD0⟩
  let fourVecDstar := fourVecPi.add M fourVecD0
  let fourVecPiCM := Boost M (fourVecDstar.BoostToCM M) fourVecPi
  fourVecPiCM.Vect

/-- Lines 314-334: deposit of the two observable vectors of an accepted candidate. -/
def FillReco (fReadMC : Bool) (labD orig : Int) (var4nSparse var4nSparseThetaPhiStar : List K) :
    List (Fill K) :=
  if !fReadMC then
    [⟨Hist.fnSparseReco 0, var4nSparse⟩,
     ⟨Hist.fnSparseRecoThetaPhiStar 0, var4nSparseThetaPhiStar⟩]
  else
    if labD > 0 then
      if orig = 4 then
        [⟨Hist.fnSparseReco 1, var4nSparse⟩,
         ⟨Hist.fnSparseRecoThetaPhiStar 1, var4nSparseThetaPhiStar⟩]
      else if orig = 5 then
        [⟨Hist.fnSparseReco 2, var4nSparse⟩,
         ⟨Hist.fnSparseRecoThetaPhiStar 2, var4nSparseThetaPhiStar⟩]
      else []
    else
      [⟨Hist.fnSparseReco 3, var4nSparse⟩,
       ⟨Hist.fnSparseRecoThetaPhiStar 3, var4nSparseThetaPhiStar⟩]

/-- Lines 284-309: the angular observables of the candidate. -/
def recoObs (M : TMath K) (T : Task K) (c : Cand K) : AngularObs K :=
  let ptCand := Pt M c.Px c.Py
  let pCand := P M c.Px c.Py c.Pz
  angularObs M c.Px c.Py c.Pz ptCand pCand (recoThreeVecPiCM M T c)

/-- Line 311: the seven-dimensional observable vector. -/
def var4nSparse (M : TMath K) (T : Task K) (centrality : K) (c : Cand K) : List K :=
  let mass := c.DeltaInvMass
  let ptCand := Pt M c.Px c.Py
  let yCand := c.Y
  let o := recoObs M T c
  [mass, ptCand, yCand, o.cosThetaStarBeam, o.cosThetaStarProd, o.cosThetaStarHelicity,
    centrality]

/-- Line 312: the four-dimensional observable vector. -/
def var4nSparseThetaPhiStar (M : TMath K) (T : Task K) (c : Cand K) : List K :=
  let mass := c.DeltaInvMass
  let ptCand := Pt M c.Px c.Py
  let o := recoObs M T c
  [mass, ptCand, o.thetaStarBeam, o.phiStarBeam]

/-- Lines 267-334 for an accepted candidate: truth, observables and deposit. -/
def analyseCandidate (M : TMath K) (T : Task K) (arrayMC : List (AliAODMCParticle K))
    (centrality : K) (c : Cand K) : List (Fill K) :=
  let truth := getMCTruth T arrayMC c
  let labD := truth.1
  let orig := truth.2
  FillReco T.fReadMC labD orig (var4nSparse M T centrality c) (var4nSparseThetaPhiStar M T c)

/-- Lines 336-339 and 258-261: the caller settles the vertex obligations. -/
def releaseVtx (T : Task K) (s : SelState K) : SelState K :=
  let s := if s.unsetVtx then s.UnsetOwnPrimaryVtx else s
  if s.recVtx then
    { s.call Call.CleanOwnPrimaryVtx with cand := T.CleanOwnPrimaryVtx s.cand s.origOwnVtx }
  else s

/-- Lines 251-253: the reference arguments `UserExec` enters the selection with. -/
def entryState (c : Cand K) (fHistNEvents : List Nat) : SelState K :=
  { cand := c, unsetVtx := false, recVtx := false, origOwnVtx := none,
    fHistNEvents := fHistNEvents, calls := [] }

/-- Body of the candidate loop of `UserExec` (lines 244-340) for one candidate: the
selection state left behind and the histogram fills made. -/
def UserExecCandidate (M : TMath K) (T : Task K) (arrayMC : List (AliAODMCParticle K))
    (centrality : K) (dZeroDau : Bool) (c : Cand K) (fHistNEvents : List Nat) :
    SelState K × List (Fill K) :=
  let s := entryState c fHistNEvents
  let r := IsCandidateSelected M T true dZeroDau true s
  let isSelected := r.1
  let s := r.2
  if isSelected = 0 then (releaseVtx T s, [])
  else
    let s := s.Fill 13
    let fills := analyseCandidate M T arrayMC centrality s.cand
    (releaseVtx T s, fills)

end Reco

/-! ## Generated-particle acceptance (`FillMCGenAccHistos`, `CheckDaugAcc`) -/

section Gen

variable {K : Type} [LinearOrderedField K]

/-- Loop of `CheckDaugAcc` (lines 526-543) over the prong indices still to visit; `none`
stands for reading outside `labDau` or through a null mother pointer. -/
def CheckDaugAccLoop (M : TMath K) (arrayMC : List (AliAODMCParticle K)) (labDau : List Int) :
    List Nat → Option Bool
  | [] => some true
  | iProng :: rest =>
    match labDau.get? iProng with
    | none => none
    | some lab =>
      match At arrayMC lab with
      | none => some false
      | some mcPartDaughter =>
        match At arrayMC mcPartDaughter.Mother with
        | none => none
        | some mother =>
          let isSoftPion : Bool := mother.PdgCode.natAbs = 413
          let eta := mcPartDaughter.Eta
          let pt := Pt M mcPartDaughter.Px mcPartDaughter.Py
          let minPt : K := if !isSoftPion then 1 / 10 else 6 / 100
          if |eta| > 9 / 10 ∨ pt < minPt then some false
          else CheckDaugAccLoop M arrayMC labDau rest

/-- Function `CheckDaugAcc(arrayMC, nProng, labDau)` (lines 522-545). -/
def CheckDaugAcc (M : TMath K) (arrayMC : List (AliAODMCParticle K)) (nProng : Int)
    (labDau : List Int) : Option Bool :=
  CheckDaugAccLoop M arrayMC labDau (List.range nProng.toNat)

/-- Lines 500-513: deposit of the observable vectors of a generated particle. -/
def FillMC (orig : Int) (isParticleFromOutOfBunchPileUpEvent : Bool)
    (var4nSparseAcc var4nSparseAccThetaPhiStar : List K) : List (Fill K) :=
  if orig = 4 ∧ !isParticleFromOutOfBunchPileUpEvent then
    [⟨Hist.fnSparseMC 0, var4nSparseAcc⟩,
     ⟨Hist.fnSparseMCThetaPhiStar 0, var4nSparseAccThetaPhiStar⟩]
  else if orig = 5 ∧ !isParticleFromOutOfBunchPileUpEvent then
    [⟨Hist.fnSparseMC 1, var4nSparseAcc⟩,
     ⟨Hist.fnSparseMCThetaPhiStar 1, var4nSparseAccThetaPhiStar⟩]
  else []

/-- The acceptance condition of line 478. -/
def inAcceptance (T : Task K) (isFidAcc isDaugInAcc : Bool) (rapid : K) : Bool :=
  (T.fFillAcceptanceLevel && isFidAcc && isDaugInAcc) ||
    (!T.fFillAcceptanceLevel && decide (|rapid| < 1))

/-- The array `labDau` as `CheckDstarDecay` leaves it (lines 459-463). -/
def labDauOf (T : Task K) (arrayMC : List (AliAODMCParticle K)) (mcPart : AliAODMCParticle K) :
    List Int :=
  [(T.CheckDstarDecay arrayMC mcPart).2.1, (T.CheckDstarDecay arrayMC mcPart).2.2.1,
    (T.CheckDstarDecay arrayMC mcPart).2.2.2]

/-- Lines 480-498: the angular observables of a generated particle and its first daughter. -/
def genObs (M : TMath K) (mcPart dauFirst : AliAODMCParticle K) : AngularObs K :=
  let pt := Pt M mcPart.Px mcPart.Py
  let p := P M mcPart.Px mcPart.Py mcPart.Pz
  let fourVecDstar : PxPyPzMVector K := ⟨mcPart.Px, mcPart.Py, mcPart.Pz, mcPart.M⟩
  let fourVecPi : PxPyPzMVector K := ⟨dauFirst.Px, dauFirst.Py, dauFirst.Pz, dauFirst.M⟩
  let fourVecPiCM := Boost M (fourVecDstar.BoostToCM M) fourVecPi
  angularObs M mcPart.Px mcPart.Py mcPart.Pz pt p fourVecPiCM.Vect

/-- Lines 502, 509: the six-dimensional observable vector of a generated particle. -/
def var4nSparseAcc (M : TMath K) (centrality : K) (mcPart dauFirst : AliAODMCParticle K) :
    List K :=
  let o := genObs M mcPart dauFirst
  [Pt M mcPart.Px mcPart.Py, mcPart.Y, o.cosThetaStarBeam, o.cosThetaStarProd,
    o.cosThetaStarHelicity, centrality]

/-- Lines 503, 510: the three-dimensional observable vector of a generated particle. -/
def var4nSparseAccThetaPhiStar (M : TMath K) (mcPart dauFirst : AliAODMCParticle K) : List K :=
  let o := genObs M mcPart dauFirst
  [Pt M mcPart.Px mcPart.Py, o.thetaStarBeam, o.phiStarBeam]

/-- Body of the particle loop of `FillMCGenAccHistos` (lines 450-516) for the particle
`mcPart` at index `iPart`; `none` stands for a null-pointer dereference. -/
def FillMCGenAccPart (M : TMath K) (T : Task K) (arrayMC : List (AliAODMCParticle K))
    (centrality : K) (iPart : Nat) (mcPart : AliAODMCParticle K) : Option (List (Fill K)) :=
  if mcPart.PdgCode.natAbs = 413 then
    let orig := T.CheckOrigin arrayMC mcPart
    let isParticleFromOutOfBunchPileUpEvent :=
      T.IsParticleFromOutOfBunchPileupCollision iPart arrayMC
    let nDau : Int := 3
    let deca := (T.CheckDstarDecay arrayMC mcPart).1
    let labDau := labDauOf T arrayMC mcPart
    if (T.CheckDstarDecay arrayMC mcPart).2.1 = -1 then some []
    else
      let isGoodDecay : Bool := deca > 0
      if isGoodDecay then
        let pt := Pt M mcPart.Px mcPart.Py
        let rapid := mcPart.Y
        let isFidAcc := T.IsInFiducialAcceptance pt rapid
        match CheckDaugAcc M arrayMC nDau labDau with
        | none => none
        | some isDaugInAcc =>
          if inAcceptance T isFidAcc isDaugInAcc rapid then
            match At arrayMC mcPart.DaughterFirst with
            | none => none
            | some dauFirst =>
              some (FillMC orig isParticleFromOutOfBunchPileUpEvent
                (var4nSparseAcc M centrality mcPart dauFirst)
                (var4nSparseAccThetaPhiStar M mcPart dauFirst))
          else some []
      else some []
  else some []

/-- Function `FillMCGenAccHistos(arrayMC, mcHeader, centrality)` (lines 439-519);
`zMCVertex` is `mcHeader->GetVtxZ()`. -/
def FillMCGenAccHistos (M : TMath K) (T : Task K) (arrayMC : List (AliAODMCParticle K))
    (zMCVertex centrality : K) : Option (List (Fill K)) :=
  if |zMCVertex| ≤ T.GetMaxVtxZ then
    arrayMC.enum.foldlM
      (fun fills ip => (FillMCGenAccPart M T arrayMC centrality ip.1 ip.2).map (fills ++ ·))
      []
  else some []

end Gen

/-! ## The candidate as the stages of the selection find it -/

section Stages

variable {K : Type} [LinearOrderedField K]

/-- The candidate as `FillRecoCasc` leaves it (line 372). -/
def candFilled (T : Task K) (c : Cand K) : Cand K := (T.FillRecoCasc c).2

/-- The vertex association of lines 380-387 on the candidate. -/
def assocCand (T : Task K) (c : Cand K) : Cand K :=
  if c.ownPrimaryVtx.isNone then c.SetOwnPrimaryVtx T.GetPrimaryVertex else c

/-- The optional vertex recomputation of lines 407-418 on the candidate. -/
def recalcCand (T : Task K) (c : Cand K) : Cand K :=
  if T.GetIsPrimaryWithoutDaughters then
    if (T.RecalcOwnPrimaryVtx c).1 then (T.RecalcOwnPrimaryVtx c).2
    else T.CleanOwnPrimaryVtx (T.RecalcOwnPrimaryVtx c).2 c.ownPrimaryVtx
  else c

/-- The candidate after the vertex association of lines 380-387. -/
def candAssoc (T : Task K) (c : Cand K) : Cand K := assocCand T (candFilled T c)

/-- The bin index `ptBin` of line 391. -/
def ptBinOf (M : TMath K) (T : Task K) (c : Cand K) : Int :=
  T.PtBin (Pt M (candAssoc T c).Px (candAssoc T c).Py)

/-- The value `isSelected` of line 399. -/
def cutVerdict (T : Task K) (c : Cand K) : Int := (T.IsSelected (candAssoc T c)).1

/-- The candidate as `IsSelected` leaves it (line 399). -/
def candSelected (T : Task K) (c : Cand K) : Cand K := (T.IsSelected (candAssoc T c)).2

/-- The candidate after the optional vertex recomputation of lines 407-418. -/
def candRecalc (T : Task K) (c : Cand K) : Cand K := recalcCand T (candSelected T c)

/-- Calls of the daughter-track loop and the pre-selection (lines 357-366); `PreSelect`
is called on the array without entries. -/
def callsPreSelect : List Call :=
  [Call.GetProng 0, Call.GetProng 1, Call.GetProng 2, Call.PreSelect []]

/-- Calls of the vertex association (lines 381-383) on a candidate. -/
def callsAssoc (c : Cand K) : List Call :=
  Call.GetOwnPrimaryVtx ::
    (if c.ownPrimaryVtx.isNone then [Call.GetPrimaryVertex, Call.SetOwnPrimaryVtx] else [])

/-- Calls that release a borrowed vertex on a rejection (lines 394-395, 402-403). -/
def callsRelease (unsetVtx : Bool) : List Call :=
  if unsetVtx then [Call.UnsetOwnPrimaryVtx] else []

/-- Calls of the optional vertex recomputation (lines 410-417) on a candidate. -/
def callsRecalc (T : Task K) (c : Cand K) : List Call :=
  Call.GetIsPrimaryWithoutDaughters ::
    (if T.GetIsPrimaryWithoutDaughters then
      Call.GetOwnPrimaryVtx ::
        ((if c.ownPrimaryVtx.isSome then [Call.GetOwnPrimaryVtx] else []) ++
          Call.RecalcOwnPrimaryVtx ::
            (if (T.RecalcOwnPrimaryVtx c).1 then [] else [Call.CleanOwnPrimaryVtx]))
    else [])

/-- Calls of the optional classifier (lines 427-428). -/
def callsML (T : Task K) : List Call :=
  if T.fApplyML then [Call.GetPidHF, Call.GetMagneticField, Call.IsSelectedMultiClass] else []

/-- The selection state at line 389, after pre-selection, reconstruction fill and vertex
association have passed. -/
def stateAtPt (T : Task K) (s : SelState K) : SelState K :=
  { cand := candAssoc T s.cand
    unsetVtx := (candFilled T s.cand).ownPrimaryVtx.isNone
    recVtx := s.recVtx
    origOwnVtx := s.origOwnVtx
    fHistNEvents := s.fHistNEvents ++ [11, 12]
    calls := s.calls ++ callsPreSelect ++ Call.FillRecoCasc :: callsAssoc (candFilled T s.cand) }

end Stages

/-! ## Histogram axes (`CreateEffSparses`, `CreateRecoSparses`) -/

section Axes

variable {K : Type} [LinearOrderedField K]

/-- Line 563: lower edges of the axes (pT, theta*, phi*) of `fnSparseMCThetaPhiStar`. -/
def xminThetaPhiAcc : List K := [0, 0, 0]

/-- Line 564: upper edges of the axes of `fnSparseMCThetaPhiStar`; `Pi` is `TMath::Pi()`
and `ptMax` is `ptLims[nPtBinsCutObj]`. -/
def xmaxThetaPhiAcc (Pi ptMax : K) : List K := [ptMax, Pi, Pi]

/-- Line 606: lower edges of the axes (mass, pT, theta*, phi*) of
`fnSparseRecoThetaPhiStar`, with `massMin = 0.138`. -/
def xminThetaPhiReco : List K := [138 / 1000, 0, 0, 0]

/-- Line 607: upper edges of the axes of `fnSparseRecoThetaPhiStar`, with
`massMax = 0.160`. -/
def xmaxThetaPhiReco (Pi ptMax : K) : List K := [160 / 1000, ptMax, Pi, Pi]

end Axes

/-! ## Rotation about the beam axis -/

section Rotation

variable {K : Type} [LinearOrderedField K]

/-- Rotation of a three-vector about the z axis by the angle of cosine `c` and sine `s`. -/
def XYZVector.rotZ (c s : K) (v : XYZVector K) : XYZVector K :=
  ⟨c * v.X - s * v.Y, s * v.X + c * v.Y, v.Z⟩

/-- Rotation of the momentum of a four-vector about the z axis by the angle of cosine `c`
and sine `s`. -/
def PxPyPzMVector.rotZ (c s : K) (v : PxPyPzMVector K) : PxPyPzMVector K :=
  ⟨c * v.Px - s * v.Py, s * v.Px + c * v.Py, v.Pz, v.M⟩

/-- A generated particle with its lab momentum rotated about the z axis by the angle of
cosine `c` and sine `s`. -/
def AliAODMCParticle.rotZ (c s : K) (p : AliAODMCParticle K) : AliAODMCParticle K :=
  { p with Px := c * p.Px - s * p.Py, Py := s * p.Px + c * p.Py }

/-- A candidate with the lab momenta of the candidate, of its soft pion and of its
two-body daughter rotated about the z axis by the angle of cosine `c` and sine `s`. -/
def Cand.rotZ (c s : K) (cand : Cand K) : Cand K :=
  { cand with
    Px := c * cand.Px - s * cand.Py, Py := s * cand.Px + c * cand.Py
    piPx := c * cand.piPx - s * cand.piPy, piPy := s * cand.piPx + c * cand.piPy
    d0Px := c * cand.d0Px - s * cand.d0Py, d0Py := s * cand.d0Px + c * cand.d0Py }

/-- Lines 482-492: the momentum of the first daughter in the rest frame of the generated
particle (the probe vector `threeVecPiCM`). -/
def genThreeVecPiCM (M : TMath K) (mcPart dauFirst : AliAODMCParticle K) : XYZVector K :=
  let fourVecDstar : PxPyPzMVector K := ⟨mcPart.Px, mcPart.Py, mcPart.Pz, mcPart.M⟩
  let fourVecPi : PxPyPzMVector K := ⟨dauFirst.Px, dauFirst.Py, dauFirst.Pz, dauFirst.M⟩
  (Boost M (fourVecDstar.BoostToCM M) fourVecPi).Vect

end Rotation

/-! ## Daughter acceptance as the specification states it -/

section SpecDaughters

variable {K : Type} [LinearOrderedField K]

/-- The minimum pT stated for a daughter: 0.06 when its mother has |PDG code| 413 (soft
pion), 0.1 otherwise. -/
def specMinPt (arrayMC : List (AliAODMCParticle K)) (d : AliAODMCParticle K) : K :=
  match At arrayMC d.Mother with
  | some mother => if mother.PdgCode.natAbs = 413 then 6 / 100 else 1 / 10
  | none => 1 / 10

/-- The acceptance stated for the daughter with label `lab`: the particle exists, has
`|eta| ≤ 0.9` and has `pt ≥ minPt`. -/
def specDaugInAcc (M : TMath K) (arrayMC : List (AliAODMCParticle K)) (lab : Int) : Bool :=
  match At arrayMC lab with
  | some d => decide (|d.Eta| ≤ 9 / 10) && decide (specMinPt arrayMC d ≤ Pt M d.Px d.Py)
  | none => false

end SpecDaughters

/-! ## Concrete inputs -/

/-- Largest `r` below or equal to the bound with `r * r ≤ n`. -/
def isqrtFrom (n : Nat) : Nat → Nat
  | 0 => 0
  | r + 1 => if (r + 1) * (r + 1) ≤ n then r + 1 else isqrtFrom n r

/-- Integer square root. -/
def isqrt (n : Nat) : Nat := isqrtFrom n n

/-- Rational stand-ins for the `TMath` functions, for running the definitions on concrete
inputs: the square root is exact on quotients of perfect squares, the two angle
functions are coarse. -/
def ratMath : TMath ℚ :=
  { Sqrt := fun x => (isqrt x.num.toNat : ℚ) / (isqrt x.den : ℚ)
    ACos := fun x => (1 - x) * (157 / 100)
    ATan2 := fun y x => if y < 0 then -(157 / 100) else if x < 0 then 314 / 100 else 0 }

/-- A candidate with momentum `(3, 4, 12)` whose two-body daughter owns no primary vertex. -/
def exCand : Cand ℚ :=
  { Px := 3, Py := 4, Pz := 12
    piPx := 1 / 4, piPy := 3 / 10, piPz := 1
    d0Px := 11 / 4, d0Py := 37 / 10, d0Pz := 11
    DeltaInvMass := 29 / 200, Y := 1 / 2
    ownPrimaryVtx := none }

/-- A generated prompt `D*+`: its mother, at label 3, is a charm quark, and its first
daughter is at label 8. -/
def exDstar : AliAODMCParticle ℚ := ⟨413, 3, 8, 3, 4, 0, 2, 0, 0⟩

/-- The soft pion of `exDstar`, with `pt = 1/2` and `eta = 0`. -/
def exSoftPion : AliAODMCParticle ℚ := ⟨211, 5, -1, 3 / 10, 2 / 5, 0, 7 / 50, 0, 0⟩

/-- A small particle stack: two beam protons, a gluon, a charm quark, a `B0`, the prompt
`D*+` (label 5), a `D*+` from the `B0` (label 6), a `D*+` from the gluon (label 7), and
the soft pion of the prompt `D*+` (label 8). -/
def exArrayMC : List (AliAODMCParticle ℚ) :=
  [ ⟨2212, -1, 2, 0, 0, 7000, 1, 9, 9⟩,
    ⟨2212, -1, 2, 0, 0, -7000, 1, -9, -9⟩,
    ⟨21, 0, 3, 1, 1, 5, 0, 1, 1⟩,
    ⟨4, 2, 5, 3, 4, 12, 3 / 2, 1 / 2, 1 / 2⟩,
    ⟨511, 2, 6, 3, 4, 0, 5, 0, 0⟩,
    exDstar,
    ⟨413, 4, 8, 3, 4, 0, 2, 0, 0⟩,
    ⟨413, 2, 8, 3, 4, 0, 2, 0, 0⟩,
    exSoftPion ]

/-- A cut configuration and collaborators that accept every candidate with `1 ≤ pt < 50`,
recompute the primary vertex, and read the origin from the mother of the particle. -/
def exTask : Task ℚ :=
  { fReadMC := true
    fApplyML := true
    fFillAcceptanceLevel := false
    GetPrimaryVertex := ⟨1⟩
    GetProng := fun _ _ i => some ⟨i⟩
    PreSelect := fun _ => true
    FillRecoCasc := fun c => (true, c)
    PtBin := fun pt => if pt < 1 then -1 else if pt < 50 then 0 else -1
    IsSelected := fun c => (3, c)
    GetIsPrimaryWithoutDaughters := true
    RecalcOwnPrimaryVtx := fun c => (true, c.SetOwnPrimaryVtx ⟨2⟩)
    CleanOwnPrimaryVtx := fun c origOwnVtx =>
      match origOwnVtx with
      | some v => c.SetOwnPrimaryVtx v
      | none => c.UnsetOwnPrimaryVtx
    IsSelectedMultiClass := fun _ => true
    MatchToMC := fun _ _ => 5
    CheckOrigin := fun arrayMC part =>
      match At arrayMC part.Mother with
      | some mother =>
        if mother.PdgCode.natAbs = 511 then 5 else if mother.PdgCode.natAbs = 4 then 4 else 0
      | none => 0
    IsParticleFromOutOfBunchPileupCollision := fun _ _ => false
    CheckDstarDecay := fun _ _ => (1, (8, 8, 8))
    IsInFiducialAcceptance := fun _ _ => true
    GetMaxVtxZ := 10
    massPi := 7 / 50
    massD0 := 373 / 200 }

/-- The candidate `exCand` with the momentum scaled down to `pt = 1/2`, below the first
bin edge of `exTask`. -/
def exCandLowPt : Cand ℚ :=
  { exCand with Px := 3 / 10, Py := 4 / 10, Pz := 12 / 10 }

/-- The configuration `exTask` with a cut selection that rejects every candidate. -/
def exTaskCutFail : Task ℚ :=
  { exTask with IsSelected := fun c => (0, c) }

/-- The configuration `exTask` with a truth matching that returns the label 7 of the
`D*+` from the gluon, for which `CheckOrigin` is 0. -/
def exTaskGluon : Task ℚ :=
  { exTask with MatchToMC := fun _ _ => 7 }

/-- The configuration `exTask` with a truth matching that returns the label 6 of the
`D*+` from the `B0`, for which `CheckOrigin` is 5. -/
def exTaskFeedDown : Task ℚ :=
  { exTask with MatchToMC := fun _ _ => 6 }

/-- The configuration `exTask` with a truth matching that returns the label 0. -/
def exTaskLabelZero : Task ℚ :=
  { exTask with MatchToMC := fun _ _ => 0 }

/-- A particle stack of a single generated `D*+`, at label 0 and without mother, with its
soft pion at label 1. -/
def exArrayMCGun : List (AliAODMCParticle ℚ) :=
  [ ⟨413, -1, 1, 3, 4, 0, 2, 0, 0⟩,
    ⟨211, 0, -1, 3 / 10, 2 / 5, 0, 7 / 50, 0, 0⟩ ]

/-- A particle stack whose first entry, at label 0, is a `D*+` from the `B0` at label 1,
itself from the beauty quark at label 2. -/
def exArrayMCGunB : List (AliAODMCParticle ℚ) :=
  [ ⟨413, 1, 3, 3, 4, 0, 2, 0, 0⟩,
    ⟨511, 2, 0, 3, 4, 12, 5, 1 / 2, 1 / 2⟩,
    ⟨5, -1, 1, 3, 4, 12, 5, 1 / 2, 1 / 2⟩,
    ⟨211, 0, -1, 3 / 10, 2 / 5, 0, 7 / 50, 0, 0⟩ ]

/-- The candidate `exCand` with no transverse momentum: `pt = 0`. -/
def exCandZeroPt : Cand ℚ :=
  { exCand with Px := 0, Py := 0 }

/-- The configuration `exTask` without truth information and with a first pT bin that
starts at zero. -/
def exTaskNoMC : Task ℚ :=
  { exTask with
    fReadMC := false
    PtBin := fun pt => if pt < 50 then 0 else -1 }

/-- A generated prompt `D*+` at rest: `pt = 0` and `p = 0`. -/
def exDstarAtRest : AliAODMCParticle ℚ := ⟨413, 3, 8, 0, 0, 0, 2, 0, 0⟩

/-- A generated `D*+` of momentum `(3, 0, 0)` and mass 4: energy 5, velocity 3/5. -/
def exMotherX (K : Type) [LinearOrderedField K] : AliAODMCParticle K :=
  ⟨413, -1, 1, 3, 0, 0, 4, 0, 0⟩

/-- A daughter of momentum `(3/4, 0, 3/5)` and mass 4/5: energy 5/4, so it moves along x
with the velocity of `exMotherX`. -/
def exPionComoving (K : Type) [LinearOrderedField K] : AliAODMCParticle K :=
  ⟨211, 0, -1, 3 / 4, 0, 3 / 5, 4 / 5, 0, 0⟩

/-- A daughter of momentum `(0, -1, 0)`. -/
def exPionDown (K : Type) [LinearOrderedField K] : AliAODMCParticle K :=
  ⟨211, 0, -1, 0, -1, 0, 7 / 50, 0, 0⟩

/-- A candidate of momentum `(3, 0, 0)` whose soft pion has momentum `(0, -1, 0)`. -/
def exCandDown (K : Type) [LinearOrderedField K] : Cand K :=
  { Px := 3, Py := 0, Pz := 0
    piPx := 0, piPy := -1, piPz := 0
    d0Px := 3, d0Py := 1, d0Pz := 0
    DeltaInvMass := 29 / 200, Y := 0
    ownPrimaryVtx := none }

/-- The selection state `UserExec` enters `IsCandidateSelected` with (lines 251-253). -/
def exState : SelState ℚ := entryState exCand []

/-- The entry state for the low-pT candidate. -/
def exStateLowPt : SelState ℚ := { exState with cand := exCandLowPt }

/-! ## Range of the cosine observables -/

/-- Cauchy-Schwarz for three-vectors, in the squared form. -/
theorem XYZVector.dot_sq_le {K : Type} [LinearOrderedField K] (a b : XYZVector K) :
    (a.Dot b) ^ 2 ≤ a.Mag2 * b.Mag2 := by
  unfold XYZVector.Dot XYZVector.Mag2
  nlinarith [sq_nonneg (a.X * b.Y - a.Y * b.X), sq_nonneg (a.X * b.Z - a.Z * b.X),
    sq_nonneg (a.Y * b.Z - a.Z * b.Y)]

/-- With the exact square root, a unit axis gives a value in `[0, 1]`. -/
theorem cosThetaStar_mem_unit (M : TMath ℝ) (hM : M.Sqrt = Real.sqrt) (axis v : XYZVector ℝ)
    (haxis : axis.Mag2 = 1) (hv : 0 < v.Mag2) :
    0 ≤ cosThetaStar M axis v ∧ cosThetaStar M axis v ≤ 1 := by
  unfold cosThetaStar
  refine ⟨abs_nonneg _, ?_⟩
  rw [hM]
  have hs : 0 < Real.sqrt v.Mag2 := Real.sqrt_pos.mpr hv
  rw [abs_div, abs_of_pos hs, div_le_one hs]
  apply Real.abs_le_sqrt
  have h := XYZVector.dot_sq_le axis v
  rw [haxis, one_mul] at h
  exact h

/-- The production-plane normal has unit length when `pt` is the exact transverse momentum. -/
theorem normalVec_mag2 (px py : ℝ) (hpt : 0 < Real.sqrt (px * px + py * py)) :
    (normalVec px py (Real.sqrt (px * px + py * py))).Mag2 = 1 := by
  have hr : 0 < px * px + py * py := Real.sqrt_pos.mp hpt
  have hs := Real.mul_self_sqrt hr.le
  have hne := hr.ne.symm
  simp only [normalVec, XYZVector.Mag2, div_mul_div_comm, hs, mul_zero, add_zero]
  field_simp
  ring

/-- The helicity axis has unit length when `p` is the exact momentum magnitude. -/
theorem helicityVec_mag2 (px py pz : ℝ) (hp : 0 < Real.sqrt (px * px + py * py + pz * pz)) :
    (helicityVec px py pz (Real.sqrt (px * px + py * py + pz * pz))).Mag2 = 1 := by
  have hr : 0 < px * px + py * py + pz * pz := Real.sqrt_pos.mp hp
  have hs := Real.mul_self_sqrt hr.le
  have hne := hr.ne.symm
  simp only [helicityVec, XYZVector.Mag2, div_mul_div_comm, hs]
  field_simp

/-- The beam axis has unit length. -/
theorem beamVec_mag2 {K : Type} [LinearOrderedField K] : (beamVec : XYZVector K).Mag2 = 1 := by
  simp [beamVec, XYZVector.Mag2]

/-- A vector with a non-zero component has positive squared magnitude. -/
theorem XYZVector.mag2_pos {K : Type} [LinearOrderedField K] (v : XYZVector K)
    (hv : v.X ≠ 0 ∨ v.Y ≠ 0 ∨ v.Z ≠ 0) : 0 < v.Mag2 := by
  unfold XYZVector.Mag2
  rcases hv with h | h | h
  · have := mul_self_pos.mpr h
    nlinarith [mul_self_nonneg v.Y, mul_self_nonneg v.Z]
  · have := mul_self_pos.mpr h
    nlinarith [mul_self_nonneg v.X, mul_self_nonneg v.Z]
  · have := mul_self_pos.mpr h
    nlinarith [mul_self_nonneg v.X, mul_self_nonneg v.Y]

/-- C5: in exact real arithmetic, for a mother momentum with `pt > 0` and `p > 0` and a
non-zero probe vector, the production, helicity and beam cosine observables computed by
the task all lie in the closed interval `[0, 1]`. -/
theorem C5_cosines_in_unit_interval (M : TMath ℝ) (hM : M.Sqrt = Real.sqrt)
    (px py pz : ℝ) (v : XYZVector ℝ)
    (hpt : 0 < Pt M px py) (hp : 0 < P M px py pz)
    (hv : v.X ≠ 0 ∨ v.Y ≠ 0 ∨ v.Z ≠ 0) :
    (0 ≤ (angularObs M px py pz (Pt M px py) (P M px py pz) v).cosThetaStarProd ∧
      (angularObs M px py pz (Pt M px py) (P M px py pz) v).cosThetaStarProd ≤ 1) ∧
    (0 ≤ (angularObs M px py pz (Pt M px py) (P M px py pz) v).cosThetaStarHelicity ∧
      (angularObs M px py pz (Pt M px py) (P M px py pz) v).cosThetaStarHelicity ≤ 1) ∧
    (0 ≤ (angularObs M px py pz (Pt M px py) (P M px py pz) v).cosThetaStarBeam ∧
      (angularObs M px py pz (Pt M px py) (P M px py pz) v).cosThetaStarBeam ≤ 1) := by
  have hv2 := XYZVector.mag2_pos v hv
  unfold Pt at hpt
  unfold P at hp
  rw [hM] at hpt hp
  simp only [angularObs, Pt, P, hM]
  exact ⟨cosThetaStar_mem_unit M hM _ v (normalVec_mag2 px py hpt) hv2,
    cosThetaStar_mem_unit M hM _ v (helicityVec_mag2 px py pz hp) hv2,
    cosThetaStar_mem_unit M hM _ v beamVec_mag2 hv2⟩

/-- C5 at the mother momentum `(3, 4, 12)` and the probe vector `(1, -2, 2)`. -/
theorem C5_cosines_in_unit_interval_witness :
    (0 < Pt (⟨Real.sqrt, Real.arccos, fun y x => Complex.arg ⟨x, y⟩⟩ : TMath ℝ) 3 4 ∧
      0 < P (⟨Real.sqrt, Real.arccos, fun y x => Complex.arg ⟨x, y⟩⟩ : TMath ℝ) 3 4 12) ∧
    (0 ≤ (angularObs (⟨Real.sqrt, Real.arccos, fun y x => Complex.arg ⟨x, y⟩⟩ : TMath ℝ)
        3 4 12 (Pt ⟨Real.sqrt, Real.arccos, fun y x => Complex.arg ⟨x, y⟩⟩ 3 4)
        (P ⟨Real.sqrt, Real.arccos, fun y x => Complex.arg ⟨x, y⟩⟩ 3 4 12)
        ⟨1, -2, 2⟩).cosThetaStarProd ∧
      (angularObs (⟨Real.sqrt, Real.arccos, fun y x => Complex.arg ⟨x, y⟩⟩ : TMath ℝ)
        3 4 12 (Pt ⟨Real.sqrt, Real.arccos, fun y x => Complex.arg ⟨x, y⟩⟩ 3 4)
        (P ⟨Real.sqrt, Real.arccos, fun y x => Complex.arg ⟨x, y⟩⟩ 3 4 12)
        ⟨1, -2, 2⟩).cosThetaStarProd ≤ 1) ∧
    (0 ≤ (angularObs (⟨Real.sqrt, Real.arccos, fun y x => Complex.arg ⟨x, y⟩⟩ : TMath ℝ)
        3 4 12 (Pt ⟨Real.sqrt, Real.arccos, fun y x => Complex.arg ⟨x, y⟩⟩ 3 4)
        (P ⟨Real.sqrt, Real.arccos, fun y x => Complex.arg ⟨x, y⟩⟩ 3 4 12)
        ⟨1, -2, 2⟩).cosThetaStarHelicity ∧
      (angularObs (⟨Real.sqrt, Real.arccos, fun y x => Complex.arg ⟨x, y⟩⟩ : TMath ℝ)
        3 4 12 (Pt ⟨Real.sqrt, Real.arccos, fun y x => Complex.arg ⟨x, y⟩⟩ 3 4)
        (P ⟨Real.sqrt, Real.arccos, fun y x => Complex.arg ⟨x, y⟩⟩ 3 4 12)
        ⟨1, -2, 2⟩).cosThetaStarHelicity ≤ 1) ∧
    (0 ≤ (angularObs (⟨Real.sqrt, Real.arccos, fun y x => Complex.arg ⟨x, y⟩⟩ : TMath ℝ)
        3 4 12 (Pt ⟨Real.sqrt, Real.arccos, fun y x => Complex.arg ⟨x, y⟩⟩ 3 4)
        (P ⟨Real.sqrt, Real.arccos, fun y x => Complex.arg ⟨x, y⟩⟩ 3 4 12)
        ⟨1, -2, 2⟩).cosThetaStarBeam ∧
      (angularObs (⟨Real.sqrt, Real.arccos, fun y x => Complex.arg ⟨x, y⟩⟩ : TMath ℝ)
        3 4 12 (Pt ⟨Real.sqrt, Real.arccos, fun y x => Complex.arg ⟨x, y⟩⟩ 3 4)
        (P ⟨Real.sqrt, Real.arccos, fun y x => Complex.arg ⟨x, y⟩⟩ 3 4 12)
        ⟨1, -2, 2⟩).cosThetaStarBeam ≤ 1) :=
  have hpt : 0 < Pt (⟨Real.sqrt, Real.arccos, fun y x => Complex.arg ⟨x, y⟩⟩ : TMath ℝ) 3 4 :=
    Real.sqrt_pos.mpr (by norm_num)
  have hp : 0 < P (⟨Real.sqrt, Real.arccos, fun y x => Complex.arg ⟨x, y⟩⟩ : TMath ℝ) 3 4 12 :=
    Real.sqrt_pos.mpr (by norm_num)
  ⟨⟨hpt, hp⟩, C5_cosines_in_unit_interval _ rfl 3 4 12 ⟨1, -2, 2⟩ hpt hp
    (Or.inl (by norm_num))⟩

/-! ## Selection cascade -/

/-- The daughter-track loop only records its three calls. -/
theorem prongLoop_eq {K : Type} (T : Task K) (s : SelState K) :
    prongLoop T s =
      { s with calls := s.calls ++ [Call.GetProng 0, Call.GetProng 1, Call.GetProng 2] } := by
  simp [prongLoop, List.range, List.range.loop, SelState.call]

section StageFacts

variable {K : Type}

/-! ### The vertex association, field by field -/

theorem associateVtx_cand (T : Task K) (s : SelState K) :
    (associateVtx T s).cand = assocCand T s.cand := by
  unfold associateVtx assocCand
  by_cases h : s.cand.ownPrimaryVtx.isNone = true <;> simp [h, SelState.call]

theorem associateVtx_unsetVtx (T : Task K) (s : SelState K) :
    (associateVtx T s).unsetVtx = s.cand.ownPrimaryVtx.isNone := by
  unfold associateVtx
  by_cases h : s.cand.ownPrimaryVtx.isNone = true <;> simp [h, SelState.call]

theorem associateVtx_recVtx (T : Task K) (s : SelState K) :
    (associateVtx T s).recVtx = s.recVtx := by
  unfold associateVtx
  by_cases h : s.cand.ownPrimaryVtx.isNone = true <;> simp [h, SelState.call]

theorem associateVtx_origOwnVtx (T : Task K) (s : SelState K) :
    (associateVtx T s).origOwnVtx = s.origOwnVtx := by
  unfold associateVtx
  by_cases h : s.cand.ownPrimaryVtx.isNone = true <;> simp [h, SelState.call]

theorem associateVtx_fHistNEvents (T : Task K) (s : SelState K) :
    (associateVtx T s).fHistNEvents = s.fHistNEvents := by
  unfold associateVtx
  by_cases h : s.cand.ownPrimaryVtx.isNone = true <;> simp [h, SelState.call]

theorem associateVtx_calls (T : Task K) (s : SelState K) :
    (associateVtx T s).calls = s.calls ++ callsAssoc s.cand := by
  unfold associateVtx callsAssoc
  by_cases h : s.cand.ownPrimaryVtx.isNone = true <;> simp [h, SelState.call]

/-! ### The vertex recomputation, field by field -/

theorem recalcVtx_cand (T : Task K) (s : SelState K) :
    (recalcVtx T s).cand = recalcCand T s.cand := by
  unfold recalcVtx recalcCand
  by_cases hp : T.GetIsPrimaryWithoutDaughters = true <;>
    cases ho : s.cand.ownPrimaryVtx <;>
    by_cases hr : (T.RecalcOwnPrimaryVtx s.cand).1 = true <;>
    simp [hp, ho, hr, SelState.call]

theorem recalcVtx_unsetVtx (T : Task K) (s : SelState K) :
    (recalcVtx T s).unsetVtx = s.unsetVtx := by
  unfold recalcVtx
  by_cases hp : T.GetIsPrimaryWithoutDaughters = true <;>
    cases ho : s.cand.ownPrimaryVtx <;>
    by_cases hr : (T.RecalcOwnPrimaryVtx s.cand).1 = true <;>
    simp [hp, ho, hr, SelState.call]

theorem recalcVtx_recVtx (T : Task K) (s : SelState K) :
    (recalcVtx T s).recVtx =
      (T.GetIsPrimaryWithoutDaughters && (T.RecalcOwnPrimaryVtx s.cand).1) := by
  unfold recalcVtx
  by_cases hp : T.GetIsPrimaryWithoutDaughters = true <;>
    cases ho : s.cand.ownPrimaryVtx <;>
    by_cases hr : (T.RecalcOwnPrimaryVtx s.cand).1 = true <;>
    simp [hp, ho, hr, SelState.call]

theorem recalcVtx_origOwnVtx (T : Task K) (s : SelState K) :
    (recalcVtx T s).origOwnVtx =
      if T.GetIsPrimaryWithoutDaughters then s.cand.ownPrimaryVtx else none := by
  unfold recalcVtx
  by_cases hp : T.GetIsPrimaryWithoutDaughters = true <;>
    cases ho : s.cand.ownPrimaryVtx <;>
    by_cases hr : (T.RecalcOwnPrimaryVtx s.cand).1 = true <;>
    simp [hp, ho, hr, SelState.call]

theorem recalcVtx_fHistNEvents (T : Task K) (s : SelState K) :
    (recalcVtx T s).fHistNEvents = s.fHistNEvents := by
  unfold recalcVtx
  by_cases hp : T.GetIsPrimaryWithoutDaughters = true <;>
    cases ho : s.cand.ownPrimaryVtx <;>
    by_cases hr : (T.RecalcOwnPrimaryVtx s.cand).1 = true <;>
    simp [hp, ho, hr, SelState.call]

/-! ### The classifier gate, field by field -/

theorem applyML_fst (T : Task K) (isSelected : Int) (s : SelState K) :
    (applyML T isSelected s).1 =
      if T.fApplyML then (if T.IsSelectedMultiClass s.cand then 1 else 0) else isSelected := by
  unfold applyML
  by_cases ha : T.fApplyML = true <;> by_cases hm : T.IsSelectedMultiClass s.cand = true <;>
    simp [ha, hm, SelState.call]

theorem applyML_cand (T : Task K) (isSelected : Int) (s : SelState K) :
    (applyML T isSelected s).2.cand = s.cand := by
  unfold applyML
  by_cases ha : T.fApplyML = true <;> by_cases hm : T.IsSelectedMultiClass s.cand = true <;>
    simp [ha, hm, SelState.call]

theorem applyML_unsetVtx (T : Task K) (isSelected : Int) (s : SelState K) :
    (applyML T isSelected s).2.unsetVtx = s.unsetVtx := by
  unfold applyML
  by_cases ha : T.fApplyML = true <;> by_cases hm : T.IsSelectedMultiClass s.cand = true <;>
    simp [ha, hm, SelState.call]

theorem applyML_recVtx (T : Task K) (isSelected : Int) (s : SelState K) :
    (applyML T isSelected s).2.recVtx = s.recVtx := by
  unfold applyML
  by_cases ha : T.fApplyML = true <;> by_cases hm : T.IsSelectedMultiClass s.cand = true <;>
    simp [ha, hm, SelState.call]

theorem applyML_origOwnVtx (T : Task K) (isSelected : Int) (s : SelState K) :
    (applyML T isSelected s).2.origOwnVtx = s.origOwnVtx := by
  unfold applyML
  by_cases ha : T.fApplyML = true <;> by_cases hm : T.IsSelectedMultiClass s.cand = true <;>
    simp [ha, hm, SelState.call]

theorem applyML_fHistNEvents (T : Task K) (isSelected : Int) (s : SelState K) :
    (applyML T isSelected s).2.fHistNEvents = s.fHistNEvents := by
  unfold applyML
  by_cases ha : T.fApplyML = true <;> by_cases hm : T.IsSelectedMultiClass s.cand = true <;>
    simp [ha, hm, SelState.call]

theorem recalcVtx_calls (T : Task K) (s : SelState K) :
    (recalcVtx T s).calls = s.calls ++ callsRecalc T s.cand := by
  unfold recalcVtx callsRecalc
  by_cases hp : T.GetIsPrimaryWithoutDaughters = true <;>
    cases ho : s.cand.ownPrimaryVtx <;>
    by_cases hr : (T.RecalcOwnPrimaryVtx s.cand).1 = true <;>
    simp [hp, ho, hr, SelState.call]

theorem applyML_calls (T : Task K) (isSelected : Int) (s : SelState K) :
    (applyML T isSelected s).2.calls = s.calls ++ callsML T := by
  unfold applyML callsML
  by_cases ha : T.fApplyML = true <;> by_cases hm : T.IsSelectedMultiClass s.cand = true <;>
    simp [ha, hm, SelState.call]

end StageFacts

section CascadeFacts

variable {K : Type} [LinearOrderedField K]

/-! ### The cut stages (lines 389-436), case by case -/

theorem cutStages_of_ptBin_neg (M : TMath K) (T : Task K) (s : SelState K)
    (hpt : T.PtBin (Pt M s.cand.Px s.cand.Py) < 0) :
    cutStages M T s =
      (0, { s with
        cand := if s.unsetVtx then s.cand.UnsetOwnPrimaryVtx else s.cand
        calls := s.calls ++ [Call.Pt, Call.PtBin] ++ callsRelease s.unsetVtx }) := by
  unfold cutStages callsRelease
  cases hu : s.unsetVtx <;> simp [hpt, hu, SelState.call, SelState.UnsetOwnPrimaryVtx]

theorem cutStages_of_cut_zero (M : TMath K) (T : Task K) (s : SelState K)
    (hpt : 0 ≤ T.PtBin (Pt M s.cand.Px s.cand.Py)) (hsel : (T.IsSelected s.cand).1 = 0) :
    cutStages M T s =
      (0, { s with
        cand := if s.unsetVtx then (T.IsSelected s.cand).2.UnsetOwnPrimaryVtx
          else (T.IsSelected s.cand).2
        calls := s.calls ++ [Call.Pt, Call.PtBin, Call.IsSelected] ++ callsRelease s.unsetVtx }) := by
  unfold cutStages callsRelease
  cases hu : s.unsetVtx <;>
    simp [not_lt.mpr hpt, hsel, hu, SelState.call, SelState.UnsetOwnPrimaryVtx]

theorem cutStages_of_cut_pass (M : TMath K) (T : Task K) (s : SelState K)
    (hpt : 0 ≤ T.PtBin (Pt M s.cand.Px s.cand.Py)) (hsel : (T.IsSelected s.cand).1 ≠ 0) :
    cutStages M T s =
      (if T.fApplyML then
          (if T.IsSelectedMultiClass (recalcCand T (T.IsSelected s.cand).2) then 1 else 0)
        else (T.IsSelected s.cand).1,
       { cand := recalcCand T (T.IsSelected s.cand).2
         unsetVtx := s.unsetVtx
         recVtx := T.GetIsPrimaryWithoutDaughters &&
           (T.RecalcOwnPrimaryVtx (T.IsSelected s.cand).2).1
         origOwnVtx :=
           if T.GetIsPrimaryWithoutDaughters then (T.IsSelected s.cand).2.ownPrimaryVtx else none
         fHistNEvents := s.fHistNEvents
         calls := s.calls ++ [Call.Pt, Call.PtBin, Call.IsSelected] ++
           callsRecalc T (T.IsSelected s.cand).2 ++ callsML T }) := by
  have eta : ∀ x : SelState K,
      x = ⟨x.cand, x.unsetVtx, x.recVtx, x.origOwnVtx, x.fHistNEvents, x.calls⟩ := fun _ => rfl
  have h1 : cutStages M T s = applyML T (T.IsSelected s.cand).1
      (recalcVtx T { s with
        cand := (T.IsSelected s.cand).2
        calls := s.calls ++ [Call.Pt, Call.PtBin, Call.IsSelected] }) := by
    simp [cutStages, SelState.call, not_lt.mpr hpt, hsel]
  rw [h1]
  apply Prod.ext
  · simp [applyML_fst, recalcVtx_cand]
  · rw [eta (applyML _ _ _).2]
    simp [applyML_cand, applyML_unsetVtx, applyML_recVtx, applyML_origOwnVtx,
      applyML_fHistNEvents, applyML_calls, recalcVtx_cand, recalcVtx_unsetVtx, recalcVtx_recVtx,
      recalcVtx_origOwnVtx, recalcVtx_fHistNEvents, recalcVtx_calls, SelState.call]

/-! ### The cascade up to the vertex association (lines 349-387), case by case -/

theorem IsCandidateSelected_of_null (M : TMath K) (T : Task K) (dStar dZeroDau vHF : Bool)
    (s : SelState K) (h : dStar = false ∨ dZeroDau = false ∨ vHF = false) :
    IsCandidateSelected M T dStar dZeroDau vHF s = (0, s) := by
  unfold IsCandidateSelected
  rcases h with h | h | h <;> simp [h]

theorem IsCandidateSelected_of_preselect_fail (M : TMath K) (T : Task K) (s : SelState K)
    (hpre : T.PreSelect [] = false) :
    IsCandidateSelected M T true true true s =
      (0, { s with
        fHistNEvents := s.fHistNEvents ++ [11, 15]
        calls := s.calls ++ callsPreSelect }) := by
  simp [IsCandidateSelected, prongLoop_eq, callsPreSelect, hpre, SelState.Fill, SelState.call]

theorem IsCandidateSelected_of_fill_fail (M : TMath K) (T : Task K) (s : SelState K)
    (hpre : T.PreSelect [] = true) (hfill : (T.FillRecoCasc s.cand).1 = false) :
    IsCandidateSelected M T true true true s =
      (0, { s with
        cand := candFilled T s.cand
        fHistNEvents := s.fHistNEvents ++ [11, 14]
        calls := s.calls ++ callsPreSelect ++ [Call.FillRecoCasc] }) := by
  simp [IsCandidateSelected, prongLoop_eq, callsPreSelect, candFilled, hpre, hfill, SelState.Fill,
    SelState.call]

theorem IsCandidateSelected_of_fill_pass (M : TMath K) (T : Task K) (s : SelState K)
    (hpre : T.PreSelect [] = true) (hfill : (T.FillRecoCasc s.cand).1 = true) :
    IsCandidateSelected M T true true true s = cutStages M T (stateAtPt T s) := by
  have eta : ∀ x : SelState K,
      x = ⟨x.cand, x.unsetVtx, x.recVtx, x.origOwnVtx, x.fHistNEvents, x.calls⟩ := fun _ => rfl
  have h1 : IsCandidateSelected M T true true true s = cutStages M T (associateVtx T
      { s with
        cand := (T.FillRecoCasc s.cand).2
        fHistNEvents := s.fHistNEvents ++ [11, 12]
        calls := s.calls ++ callsPreSelect ++ [Call.FillRecoCasc] }) := by
    simp [IsCandidateSelected, prongLoop_eq, callsPreSelect, SelState.Fill, SelState.call, hpre,
      hfill]
  rw [h1, eta (associateVtx _ _)]
  simp [stateAtPt, associateVtx_cand, associateVtx_unsetVtx, associateVtx_recVtx,
    associateVtx_origOwnVtx, associateVtx_fHistNEvents, associateVtx_calls, prongLoop_eq,
    callsPreSelect, candAssoc, candFilled, SelState.Fill, SelState.call]

/-! ### The whole cascade on the three paths through the cut stages -/

theorem IsCandidateSelected_of_ptBin_neg (M : TMath K) (T : Task K) (s : SelState K)
    (hpre : T.PreSelect [] = true) (hfill : (T.FillRecoCasc s.cand).1 = true)
    (hpt : ptBinOf M T s.cand < 0) :
    IsCandidateSelected M T true true true s =
      (0, { stateAtPt T s with
        cand := if (stateAtPt T s).unsetVtx then (candAssoc T s.cand).UnsetOwnPrimaryVtx
          else candAssoc T s.cand
        calls := (stateAtPt T s).calls ++ [Call.Pt, Call.PtBin] ++
          callsRelease (stateAtPt T s).unsetVtx }) := by
  rw [IsCandidateSelected_of_fill_pass M T s hpre hfill]
  exact cutStages_of_ptBin_neg M T (stateAtPt T s) hpt

theorem IsCandidateSelected_of_cut_zero (M : TMath K) (T : Task K) (s : SelState K)
    (hpre : T.PreSelect [] = true) (hfill : (T.FillRecoCasc s.cand).1 = true)
    (hpt : 0 ≤ ptBinOf M T s.cand) (hsel : cutVerdict T s.cand = 0) :
    IsCandidateSelected M T true true true s =
      (0, { stateAtPt T s with
        cand := if (stateAtPt T s).unsetVtx then (candSelected T s.cand).UnsetOwnPrimaryVtx
          else candSelected T s.cand
        calls := (stateAtPt T s).calls ++ [Call.Pt, Call.PtBin, Call.IsSelected] ++
          callsRelease (stateAtPt T s).unsetVtx }) := by
  rw [IsCandidateSelected_of_fill_pass M T s hpre hfill]
  exact cutStages_of_cut_zero M T (stateAtPt T s) hpt hsel

theorem IsCandidateSelected_of_cut_pass (M : TMath K) (T : Task K) (s : SelState K)
    (hpre : T.PreSelect [] = true) (hfill : (T.FillRecoCasc s.cand).1 = true)
    (hpt : 0 ≤ ptBinOf M T s.cand) (hsel : cutVerdict T s.cand ≠ 0) :
    IsCandidateSelected M T true true true s =
      (if T.fApplyML then
          (if T.IsSelectedMultiClass (candRecalc T s.cand) then 1 else 0)
        else cutVerdict T s.cand,
       { cand := candRecalc T s.cand
         unsetVtx := (stateAtPt T s).unsetVtx
         recVtx := T.GetIsPrimaryWithoutDaughters &&
           (T.RecalcOwnPrimaryVtx (candSelected T s.cand)).1
         origOwnVtx :=
           if T.GetIsPrimaryWithoutDaughters then (candSelected T s.cand).ownPrimaryVtx else none
         fHistNEvents := (stateAtPt T s).fHistNEvents
         calls := (stateAtPt T s).calls ++ [Call.Pt, Call.PtBin, Call.IsSelected] ++
           callsRecalc T (candSelected T s.cand) ++ callsML T }) := by
  rw [IsCandidateSelected_of_fill_pass M T s hpre hfill]
  exact cutStages_of_cut_pass M T (stateAtPt T s) hpt hsel

end CascadeFacts

/-! ## Claims on the selection cascade -/

section SelectionClaims

variable {K : Type} [LinearOrderedField K]

/-- C6 (as amended): entered with both flags false, `IsCandidateSelected` returns with
`unsetVtx` and `recVtx` both true exactly when the pointers are non-null, pre-selection
and the reconstruction fill pass, the daughter owns no primary vertex at the vertex
association (so the event vertex is borrowed), the pT bin is valid, the cut selection is
non-zero, `GetIsPrimaryWithoutDaughters` is true and `RecalcOwnPrimaryVtx` succeeds; on
every other path at most one of the two flags is true. -/
theorem C6_flags_both_set_iff (M : TMath K) (T : Task K) (dStar dZeroDau vHF : Bool)
    (s : SelState K) (hu : s.unsetVtx = false) (hr : s.recVtx = false) :
    ((IsCandidateSelected M T dStar dZeroDau vHF s).2.unsetVtx = true ∧
      (IsCandidateSelected M T dStar dZeroDau vHF s).2.recVtx = true) ↔
    (dStar = true ∧ dZeroDau = true ∧ vHF = true ∧ T.PreSelect [] = true ∧
      (T.FillRecoCasc s.cand).1 = true ∧ (candFilled T s.cand).ownPrimaryVtx = none ∧
      0 ≤ ptBinOf M T s.cand ∧ cutVerdict T s.cand ≠ 0 ∧
      T.GetIsPrimaryWithoutDaughters = true ∧
      (T.RecalcOwnPrimaryVtx (candSelected T s.cand)).1 = true) := by
  cases dStar <;> cases dZeroDau <;> cases vHF <;>
    try (rw [IsCandidateSelected_of_null M T _ _ _ s (by simp)]; simp [hu, hr]; done)
  cases hpre : T.PreSelect []
  · rw [IsCandidateSelected_of_preselect_fail M T s hpre]
    simp [hu, hr]
  cases hfill : (T.FillRecoCasc s.cand).1
  · rw [IsCandidateSelected_of_fill_fail M T s hpre hfill]
    simp [hu, hr]
  by_cases hpt : ptBinOf M T s.cand < 0
  · rw [IsCandidateSelected_of_ptBin_neg M T s hpre hfill hpt]
    simp [stateAtPt, hr, hpt]
  by_cases hsel : cutVerdict T s.cand = 0
  · rw [IsCandidateSelected_of_cut_zero M T s hpre hfill (not_lt.mp hpt) hsel]
    simp [stateAtPt, hr, hsel]
  · rw [IsCandidateSelected_of_cut_pass M T s hpre hfill (not_lt.mp hpt) hsel]
    simp [stateAtPt, not_lt.mp hpt, hsel]

/-- C7: a non-null candidate that passes pre-selection and the reconstruction fill and
whose pT maps to a negative bin index is rejected (value 0); if the event vertex was
borrowed at the vertex association, `UnsetOwnPrimaryVtx` is the last call made and the
daughter owns no primary vertex on return; the verdict is the same from any incoming
flags, counters and call record with the same candidate. -/
theorem C7_out_of_range_pt_rejected (M : TMath K) (T : Task K) (s : SelState K)
    (hpre : T.PreSelect [] = true) (hfill : (T.FillRecoCasc s.cand).1 = true)
    (hpt : ptBinOf M T s.cand < 0) :
    (IsCandidateSelected M T true true true s).1 = 0 ∧
    ((candFilled T s.cand).ownPrimaryVtx = none →
      (IsCandidateSelected M T true true true s).2.calls =
        s.calls ++ callsPreSelect ++
          [Call.FillRecoCasc, Call.GetOwnPrimaryVtx, Call.GetPrimaryVertex,
            Call.SetOwnPrimaryVtx, Call.Pt, Call.PtBin, Call.UnsetOwnPrimaryVtx] ∧
      (IsCandidateSelected M T true true true s).2.cand.ownPrimaryVtx = none) ∧
    (∀ s' : SelState K, s'.cand = s.cand →
      (IsCandidateSelected M T true true true s').1 =
        (IsCandidateSelected M T true true true s).1) := by
  have key : ∀ s' : SelState K, s'.cand = s.cand →
      (IsCandidateSelected M T true true true s').1 = 0 := by
    intro s' hs'
    rw [IsCandidateSelected_of_ptBin_neg M T s' hpre (by rw [hs']; exact hfill)
      (by rw [hs']; exact hpt)]
  refine ⟨key s rfl, ?_, fun s' hs' => by rw [key s' hs', key s rfl]⟩
  intro hown
  rw [IsCandidateSelected_of_ptBin_neg M T s hpre hfill hpt]
  simp [stateAtPt, callsAssoc, callsRelease, hown, Cand.UnsetOwnPrimaryVtx]

/-- C8 (as amended): the values given to `fHistNEvents->Fill` inside `IsCandidateSelected`
are: none for a null pointer; 11 and 15 when pre-selection fails; 11 and 14 when the
reconstruction fill fails; 11 and 12 on every other path, that is for a rejection by the
pT bin, by the cut selection or by the classifier, and for an accepted candidate. -/
theorem C8_counters_by_path (M : TMath K) (T : Task K) (dStar dZeroDau vHF : Bool)
    (s : SelState K) :
    (IsCandidateSelected M T dStar dZeroDau vHF s).2.fHistNEvents =
      s.fHistNEvents ++
        (if dStar = false ∨ dZeroDau = false ∨ vHF = false then []
         else if T.PreSelect [] = false then [11, 15]
         else if (T.FillRecoCasc s.cand).1 = false then [11, 14]
         else [11, 12]) := by
  cases dStar <;> cases dZeroDau <;> cases vHF <;>
    try (rw [IsCandidateSelected_of_null M T _ _ _ s (by simp)]; simp; done)
  cases hpre : T.PreSelect []
  · rw [IsCandidateSelected_of_preselect_fail M T s hpre]
    simp
  cases hfill : (T.FillRecoCasc s.cand).1
  · rw [IsCandidateSelected_of_fill_fail M T s hpre hfill]
    simp
  by_cases hpt : ptBinOf M T s.cand < 0
  · rw [IsCandidateSelected_of_ptBin_neg M T s hpre hfill hpt]
    simp [stateAtPt]
  by_cases hsel : cutVerdict T s.cand = 0
  · rw [IsCandidateSelected_of_cut_zero M T s hpre hfill (not_lt.mp hpt) hsel]
    simp [stateAtPt]
  · rw [IsCandidateSelected_of_cut_pass M T s hpre hfill (not_lt.mp hpt) hsel]
    simp [stateAtPt]

/-- C10: for a candidate that reaches the last stage (non-null pointers, pre-selection and
reconstruction fill passed, valid pT bin, non-zero cut selection), the returned value is 1
when a classifier is configured and accepts, 0 when it is configured and rejects, whatever
the non-zero cut value, and the cut value itself when no classifier is configured. -/
theorem C10_classifier_gate (M : TMath K) (T : Task K) (s : SelState K)
    (hpre : T.PreSelect [] = true) (hfill : (T.FillRecoCasc s.cand).1 = true)
    (hpt : 0 ≤ ptBinOf M T s.cand) (hsel : cutVerdict T s.cand ≠ 0) :
    (IsCandidateSelected M T true true true s).1 =
      if T.fApplyML then
        (if T.IsSelectedMultiClass (candRecalc T s.cand) then 1 else 0)
      else cutVerdict T s.cand := by
  rw [IsCandidateSelected_of_cut_pass M T s hpre hfill hpt hsel]

/-- C9: the stages run in the order null check, `PreSelect`, `FillRecoCasc`, vertex
association, `PtBin`, `IsSelected`, optional `RecalcOwnPrimaryVtx`, optional classifier,
and a rejecting stage returns 0 with no call to a collaborator of a later stage: the
calls recorded are exactly those up to the rejecting stage (with the release of a
borrowed vertex on the pT and cut rejections), and the reference arguments that later
stages would write are returned as passed in. -/
theorem C9_ordered_short_circuit (M : TMath K) (T : Task K) (dStar dZeroDau vHF : Bool)
    (s : SelState K) :
    (dStar = false ∨ dZeroDau = false ∨ vHF = false →
      IsCandidateSelected M T dStar dZeroDau vHF s = (0, s)) ∧
    (T.PreSelect [] = false →
      (IsCandidateSelected M T true true true s).1 = 0 ∧
      (IsCandidateSelected M T true true true s).2.calls = s.calls ++ callsPreSelect ∧
      (IsCandidateSelected M T true true true s).2.cand = s.cand ∧
      (IsCandidateSelected M T true true true s).2.unsetVtx = s.unsetVtx ∧
      (IsCandidateSelected M T true true true s).2.recVtx = s.recVtx ∧
      (IsCandidateSelected M T true true true s).2.origOwnVtx = s.origOwnVtx) ∧
    (T.PreSelect [] = true → (T.FillRecoCasc s.cand).1 = false →
      (IsCandidateSelected M T true true true s).1 = 0 ∧
      (IsCandidateSelected M T true true true s).2.calls =
        s.calls ++ callsPreSelect ++ [Call.FillRecoCasc] ∧
      (IsCandidateSelected M T true true true s).2.unsetVtx = s.unsetVtx ∧
      (IsCandidateSelected M T true true true s).2.recVtx = s.recVtx ∧
      (IsCandidateSelected M T true true true s).2.origOwnVtx = s.origOwnVtx) ∧
    (T.PreSelect [] = true → (T.FillRecoCasc s.cand).1 = true → ptBinOf M T s.cand < 0 →
      (IsCandidateSelected M T true true true s).1 = 0 ∧
      (IsCandidateSelected M T true true true s).2.calls =
        s.calls ++ callsPreSelect ++ Call.FillRecoCasc :: callsAssoc (candFilled T s.cand) ++
          [Call.Pt, Call.PtBin] ++ callsRelease (candFilled T s.cand).ownPrimaryVtx.isNone ∧
      (IsCandidateSelected M T true true true s).2.recVtx = s.recVtx ∧
      (IsCandidateSelected M T true true true s).2.origOwnVtx = s.origOwnVtx) ∧
    (T.PreSelect [] = true → (T.FillRecoCasc s.cand).1 = true → 0 ≤ ptBinOf M T s.cand →
        cutVerdict T s.cand = 0 →
      (IsCandidateSelected M T true true true s).1 = 0 ∧
      (IsCandidateSelected M T true true true s).2.calls =
        s.calls ++ callsPreSelect ++ Call.FillRecoCasc :: callsAssoc (candFilled T s.cand) ++
          [Call.Pt, Call.PtBin, Call.IsSelected] ++
          callsRelease (candFilled T s.cand).ownPrimaryVtx.isNone ∧
      (IsCandidateSelected M T true true true s).2.recVtx = s.recVtx ∧
      (IsCandidateSelected M T true true true s).2.origOwnVtx = s.origOwnVtx) ∧
    (T.PreSelect [] = true → (T.FillRecoCasc s.cand).1 = true → 0 ≤ ptBinOf M T s.cand →
        cutVerdict T s.cand ≠ 0 →
      (IsCandidateSelected M T true true true s).2.calls =
        s.calls ++ callsPreSelect ++ Call.FillRecoCasc :: callsAssoc (candFilled T s.cand) ++
          [Call.Pt, Call.PtBin, Call.IsSelected] ++ callsRecalc T (candSelected T s.cand) ++
          callsML T ∧
      (T.fApplyML = true → T.IsSelectedMultiClass (candRecalc T s.cand) = false →
        (IsCandidateSelected M T true true true s).1 = 0)) := by
  refine ⟨fun h => IsCandidateSelected_of_null M T _ _ _ s h, ?_, ?_, ?_, ?_, ?_⟩
  · intro hpre
    rw [IsCandidateSelected_of_preselect_fail M T s hpre]
    simp
  · intro hpre hfill
    rw [IsCandidateSelected_of_fill_fail M T s hpre hfill]
    simp
  · intro hpre hfill hpt
    rw [IsCandidateSelected_of_ptBin_neg M T s hpre hfill hpt]
    simp [stateAtPt]
  · intro hpre hfill hpt hsel
    rw [IsCandidateSelected_of_cut_zero M T s hpre hfill hpt hsel]
    simp [stateAtPt]
  · intro hpre hfill hpt hsel
    rw [IsCandidateSelected_of_cut_pass M T s hpre hfill hpt hsel]
    refine ⟨by simp [stateAtPt], fun ha hm => ?_⟩
    simp [ha, hm]

end SelectionClaims

/-! ## The selection on concrete inputs -/

theorem exTask_ptBinOf : ptBinOf ratMath exTask exCand = 0 := by
  norm_num [ptBinOf, candAssoc, candFilled, assocCand, exTask, exCand, ratMath, Pt, isqrt,
    isqrtFrom, Cand.SetOwnPrimaryVtx]

theorem exTask_ptBinOf_lowPt : ptBinOf ratMath exTask exCandLowPt = -1 := by
  norm_num [ptBinOf, candAssoc, candFilled, assocCand, exTask, exCandLowPt, exCand, ratMath, Pt,
    isqrt, isqrtFrom, Cand.SetOwnPrimaryVtx]

theorem exTaskCutFail_ptBinOf : ptBinOf ratMath exTaskCutFail exCand = 0 := by
  norm_num [ptBinOf, candAssoc, candFilled, assocCand, exTaskCutFail, exTask, exCand, ratMath, Pt,
    isqrt, isqrtFrom, Cand.SetOwnPrimaryVtx]

/-- C6 fails as stated: for `exCand`, whose daughter owns no primary vertex, under
`exTask`, whose `RecalcOwnPrimaryVtx` succeeds, the selection entered with both flags
false returns with `unsetVtx` and `recVtx` both true. -/
theorem C6_counterexample :
    exState.unsetVtx = false ∧ exState.recVtx = false ∧
    (IsCandidateSelected ratMath exTask true true true exState).2.unsetVtx = true ∧
    (IsCandidateSelected ratMath exTask true true true exState).2.recVtx = true := by
  have h := IsCandidateSelected_of_cut_pass ratMath exTask exState rfl rfl
    (by rw [show exState.cand = exCand from rfl, exTask_ptBinOf]) (by decide)
  rw [h]
  exact ⟨rfl, rfl, rfl, rfl⟩

/-- C6 (as amended) at `exCand` under `exTask`. -/
theorem C6_flags_both_set_iff_witness :
    (exState.unsetVtx = false ∧ exState.recVtx = false) ∧
    (((IsCandidateSelected ratMath exTask true true true exState).2.unsetVtx = true ∧
        (IsCandidateSelected ratMath exTask true true true exState).2.recVtx = true) ↔
      (true = true ∧ true = true ∧ true = true ∧ exTask.PreSelect [] = true ∧
        (exTask.FillRecoCasc exState.cand).1 = true ∧
        (candFilled exTask exState.cand).ownPrimaryVtx = none ∧
        0 ≤ ptBinOf ratMath exTask exState.cand ∧ cutVerdict exTask exState.cand ≠ 0 ∧
        exTask.GetIsPrimaryWithoutDaughters = true ∧
        (exTask.RecalcOwnPrimaryVtx (candSelected exTask exState.cand)).1 = true)) :=
  ⟨⟨rfl, rfl⟩, C6_flags_both_set_iff ratMath exTask true true true exState rfl rfl⟩

/-- C7 at the low-pT candidate `exCandLowPt` under `exTask`. -/
theorem C7_out_of_range_pt_rejected_witness :
    (exTask.PreSelect [] = true ∧ (exTask.FillRecoCasc exStateLowPt.cand).1 = true ∧
      ptBinOf ratMath exTask exStateLowPt.cand < 0) ∧
    ((IsCandidateSelected ratMath exTask true true true exStateLowPt).1 = 0 ∧
      ((candFilled exTask exStateLowPt.cand).ownPrimaryVtx = none →
        (IsCandidateSelected ratMath exTask true true true exStateLowPt).2.calls =
          exStateLowPt.calls ++ callsPreSelect ++
            [Call.FillRecoCasc, Call.GetOwnPrimaryVtx, Call.GetPrimaryVertex,
              Call.SetOwnPrimaryVtx, Call.Pt, Call.PtBin, Call.UnsetOwnPrimaryVtx] ∧
        (IsCandidateSelected ratMath exTask true true true exStateLowPt).2.cand.ownPrimaryVtx
          = none) ∧
      (∀ s' : SelState ℚ, s'.cand = exStateLowPt.cand →
        (IsCandidateSelected ratMath exTask true true true s').1 =
          (IsCandidateSelected ratMath exTask true true true exStateLowPt).1)) :=
  have hpt : ptBinOf ratMath exTask exStateLowPt.cand < 0 := by
    rw [show exStateLowPt.cand = exCandLowPt from rfl, exTask_ptBinOf_lowPt]
    decide
  ⟨⟨rfl, rfl, hpt⟩, C7_out_of_range_pt_rejected ratMath exTask exStateLowPt rfl rfl hpt⟩

/-- C8 fails as stated: a null candidate pointer is rejected with no value given to
`fHistNEvents->Fill`, and a rejection by the pT bin (`exCandLowPt` under `exTask`) and a
rejection by the cut selection (`exCand` under `exTaskCutFail`) give the same values, 11
and 12. -/
theorem C8_counterexample :
    ((IsCandidateSelected ratMath exTask false true true exState).1 = 0 ∧
      (IsCandidateSelected ratMath exTask false true true exState).2.fHistNEvents = []) ∧
    ((IsCandidateSelected ratMath exTask true true true exStateLowPt).1 = 0 ∧
      (IsCandidateSelected ratMath exTaskCutFail true true true exState).1 = 0 ∧
      ptBinOf ratMath exTask exStateLowPt.cand < 0 ∧
      0 ≤ ptBinOf ratMath exTaskCutFail exState.cand ∧
      (IsCandidateSelected ratMath exTask true true true exStateLowPt).2.fHistNEvents = [11, 12] ∧
      (IsCandidateSelected ratMath exTaskCutFail true true true exState).2.fHistNEvents
        = [11, 12]) := by
  have hlow : ptBinOf ratMath exTask exStateLowPt.cand < 0 := by
    rw [show exStateLowPt.cand = exCandLowPt from rfl, exTask_ptBinOf_lowPt]
    decide
  have hcut : 0 ≤ ptBinOf ratMath exTaskCutFail exState.cand := by
    rw [show exState.cand = exCand from rfl, exTaskCutFail_ptBinOf]
  rw [IsCandidateSelected_of_null ratMath exTask false true true exState (Or.inl rfl),
    IsCandidateSelected_of_ptBin_neg ratMath exTask exStateLowPt rfl rfl hlow,
    IsCandidateSelected_of_cut_zero ratMath exTaskCutFail exState rfl rfl hcut rfl]
  exact ⟨⟨rfl, rfl⟩, rfl, rfl, hlow, hcut, rfl, rfl⟩

/-- C10 at `exCand` under `exTask`: the cut value is 3 and the classifier accepts. -/
theorem C10_classifier_gate_witness :
    (exTask.PreSelect [] = true ∧ (exTask.FillRecoCasc exState.cand).1 = true ∧
      0 ≤ ptBinOf ratMath exTask exState.cand ∧ cutVerdict exTask exState.cand ≠ 0) ∧
    (IsCandidateSelected ratMath exTask true true true exState).1 =
      (if exTask.fApplyML then
        (if exTask.IsSelectedMultiClass (candRecalc exTask exState.cand) then 1 else 0)
      else cutVerdict exTask exState.cand) :=
  have hpt : 0 ≤ ptBinOf ratMath exTask exState.cand := by
    rw [show exState.cand = exCand from rfl, exTask_ptBinOf]
  have hsel : cutVerdict exTask exState.cand ≠ 0 := by decide
  ⟨⟨rfl, rfl, hpt, hsel⟩, C10_classifier_gate ratMath exTask exState rfl rfl hpt hsel⟩

/-! ## Claims on the histogram routing -/

section RoutingClaims

variable {K : Type}

/-- C1 (as amended): the deposit of an accepted candidate fills at most one reconstruction
channel. When truth is requested, the label is positive and the origin is neither 4 nor
5, no histogram is filled; in every other case exactly one index `j` in `{0, 1, 2, 3}`
has `fnSparseReco[j]` and `fnSparseRecoThetaPhiStar[j]` filled once each, with the two
observable vectors, and no other reconstruction channel is filled. -/
theorem C1_reco_routing (fReadMC : Bool) (labD orig : Int) (v7 v4 : List K) :
    (fReadMC = true ∧ 0 < labD ∧ orig ≠ 4 ∧ orig ≠ 5 ∧ FillReco fReadMC labD orig v7 v4 = []) ∨
    (¬(fReadMC = true ∧ 0 < labD ∧ orig ≠ 4 ∧ orig ≠ 5) ∧
      ∃ j, j < 4 ∧
        FillReco fReadMC labD orig v7 v4 =
          [⟨Hist.fnSparseReco j, v7⟩, ⟨Hist.fnSparseRecoThetaPhiStar j, v4⟩] ∧
        nFills (Hist.fnSparseReco j) (FillReco fReadMC labD orig v7 v4) = 1 ∧
        nFills (Hist.fnSparseRecoThetaPhiStar j) (FillReco fReadMC labD orig v7 v4) = 1 ∧
        ∀ k, k ≠ j →
          nFills (Hist.fnSparseReco k) (FillReco fReadMC labD orig v7 v4) = 0 ∧
          nFills (Hist.fnSparseRecoThetaPhiStar k) (FillReco fReadMC labD orig v7 v4) = 0) := by
  cases fReadMC
  · refine Or.inr ⟨by simp, 0, by decide, ?_⟩
    simp only [FillReco, nFills]
    refine ⟨by simp, by simp, by simp, fun k hk => ?_⟩
    simp [Ne.symm hk]
  · by_cases hlab : 0 < labD
    · by_cases h4 : orig = 4
      · refine Or.inr ⟨by simp [h4], 1, by decide, ?_⟩
        simp only [FillReco, nFills]
        refine ⟨by simp [hlab, h4], by simp [hlab, h4], by simp [hlab, h4], fun k hk => ?_⟩
        simp [hlab, h4, Ne.symm hk]
      · by_cases h5 : orig = 5
        · refine Or.inr ⟨by simp [h5], 2, by decide, ?_⟩
          simp only [FillReco, nFills]
          refine ⟨by simp [hlab, h5], by simp [hlab, h5], by simp [hlab, h5], fun k hk => ?_⟩
          simp [hlab, h5, Ne.symm hk]
        · exact Or.inl ⟨rfl, hlab, h4, h5, by simp [FillReco, hlab, h4, h5]⟩
    · refine Or.inr ⟨by simp [hlab], 3, by decide, ?_⟩
      simp only [FillReco, nFills]
      refine ⟨by simp [hlab], by simp [hlab], by simp [hlab], fun k hk => ?_⟩
      simp [hlab, Ne.symm hk]

end RoutingClaims

section RoutingClaimsField

variable {K : Type} [LinearOrderedField K]

/-- Feed-down deposit for a positive label: with truth requested, a positive matching
label and origin code 5, `fnSparseReco[2]` and `fnSparseRecoThetaPhiStar[2]` are filled
once each with the observable vectors of the candidate, and no histogram of the channels
0, 1 and 3 is filled. -/
theorem analyseCandidate_feed_down (M : TMath K) (T : Task K) (arrayMC : List (AliAODMCParticle K))
    (centrality : K) (c : Cand K) (hMC : T.fReadMC = true)
    (hlab : 0 < (getMCTruth T arrayMC c).1) (horig : (getMCTruth T arrayMC c).2 = 5) :
    analyseCandidate M T arrayMC centrality c =
      [⟨Hist.fnSparseReco 2, var4nSparse M T centrality c⟩,
       ⟨Hist.fnSparseRecoThetaPhiStar 2, var4nSparseThetaPhiStar M T c⟩] ∧
    nFills (Hist.fnSparseReco 2) (analyseCandidate M T arrayMC centrality c) = 1 ∧
    nFills (Hist.fnSparseRecoThetaPhiStar 2) (analyseCandidate M T arrayMC centrality c) = 1 ∧
    (∀ k, k = 0 ∨ k = 1 ∨ k = 3 →
      nFills (Hist.fnSparseReco k) (analyseCandidate M T arrayMC centrality c) = 0 ∧
      nFills (Hist.fnSparseRecoThetaPhiStar k) (analyseCandidate M T arrayMC centrality c) = 0) := by
  have h : analyseCandidate M T arrayMC centrality c =
      [⟨Hist.fnSparseReco 2, var4nSparse M T centrality c⟩,
       ⟨Hist.fnSparseRecoThetaPhiStar 2, var4nSparseThetaPhiStar M T c⟩] := by
    simp [analyseCandidate, FillReco, hMC, hlab, horig]
  rw [h]
  refine ⟨rfl, by simp [nFills], by simp [nFills], fun k hk => ?_⟩
  rcases hk with hk | hk | hk <;> simp [nFills, hk]

/-- C4: for a generated D*+ that passes the acceptance gate (good decay with filled
labels, daughters resolved, acceptance condition of line 478 true, first daughter
present), `fnSparseMC[0]` and `fnSparseMCThetaPhiStar[0]` are filled once each exactly
when the origin is 4 and the particle is not from out-of-bunch pile-up, `fnSparseMC[1]`
and `fnSparseMCThetaPhiStar[1]` exactly when the origin is 5 and the particle is not from
out-of-bunch pile-up, nothing is filled in every other case, and the two channels are
never both filled. -/
theorem C4_gen_routing (M : TMath K) (T : Task K) (arrayMC : List (AliAODMCParticle K))
    (centrality : K) (iPart : Nat) (mcPart dauFirst : AliAODMCParticle K) (isDaugInAcc : Bool)
    (hpdg : mcPart.PdgCode.natAbs = 413)
    (hlab : (T.CheckDstarDecay arrayMC mcPart).2.1 ≠ -1)
    (hdeca : 0 < (T.CheckDstarDecay arrayMC mcPart).1)
    (hdau : CheckDaugAcc M arrayMC 3 (labDauOf T arrayMC mcPart) = some isDaugInAcc)
    (hacc : inAcceptance T (T.IsInFiducialAcceptance (Pt M mcPart.Px mcPart.Py) mcPart.Y)
      isDaugInAcc mcPart.Y = true)
    (hfirst : At arrayMC mcPart.DaughterFirst = some dauFirst) :
    ∃ fills, FillMCGenAccPart M T arrayMC centrality iPart mcPart = some fills ∧
      ((nFills (Hist.fnSparseMC 0) fills = 1 ∧ nFills (Hist.fnSparseMCThetaPhiStar 0) fills = 1) ↔
        (T.CheckOrigin arrayMC mcPart = 4 ∧
          T.IsParticleFromOutOfBunchPileupCollision iPart arrayMC = false)) ∧
      ((nFills (Hist.fnSparseMC 1) fills = 1 ∧ nFills (Hist.fnSparseMCThetaPhiStar 1) fills = 1) ↔
        (T.CheckOrigin arrayMC mcPart = 5 ∧
          T.IsParticleFromOutOfBunchPileupCollision iPart arrayMC = false)) ∧
      (¬(T.CheckOrigin arrayMC mcPart = 4 ∧
            T.IsParticleFromOutOfBunchPileupCollision iPart arrayMC = false) →
        ¬(T.CheckOrigin arrayMC mcPart = 5 ∧
            T.IsParticleFromOutOfBunchPileupCollision iPart arrayMC = false) →
        fills = []) ∧
      (nFills (Hist.fnSparseMC 0) fills + nFills (Hist.fnSparseMC 1) fills ≤ 1) ∧
      (nFills (Hist.fnSparseMCThetaPhiStar 0) fills +
        nFills (Hist.fnSparseMCThetaPhiStar 1) fills ≤ 1) := by
  refine ⟨FillMC (T.CheckOrigin arrayMC mcPart)
    (T.IsParticleFromOutOfBunchPileupCollision iPart arrayMC)
    (var4nSparseAcc M centrality mcPart dauFirst)
    (var4nSparseAccThetaPhiStar M mcPart dauFirst), ?_, ?_⟩
  · simp [FillMCGenAccPart, hpdg, hlab, hdeca, hdau, hacc, hfirst]
  · cases hpu : T.IsParticleFromOutOfBunchPileupCollision iPart arrayMC <;>
      by_cases h4 : T.CheckOrigin arrayMC mcPart = 4 <;>
      by_cases h5 : T.CheckOrigin arrayMC mcPart = 5 <;>
      simp [FillMC, nFills, h4, h5]

end RoutingClaimsField

/-! ## The routing on concrete inputs -/

theorem exTaskGluon_ptBinOf : ptBinOf ratMath exTaskGluon exCand = 0 := by
  norm_num [ptBinOf, candAssoc, candFilled, assocCand, exTaskGluon, exTask, exCand, ratMath, Pt,
    isqrt, isqrtFrom, Cand.SetOwnPrimaryVtx]

/-- C1 fails as stated: `exCand` is accepted under `exTaskGluon` (the counter 13 is
filled), truth is requested, the matching label is 7 and the origin code is 0, and no
histogram is filled. -/
theorem C1_counterexample :
    exTaskGluon.fReadMC = true ∧
    getMCTruth exTaskGluon exArrayMC exCand = (7, 0) ∧
    (UserExecCandidate ratMath exTaskGluon exArrayMC 50 true exCand []).1.fHistNEvents
      = [11, 12, 13] ∧
    (UserExecCandidate ratMath exTaskGluon exArrayMC 50 true exCand []).2 = [] := by
  have h := IsCandidateSelected_of_cut_pass ratMath exTaskGluon exState rfl rfl
    (by rw [show exState.cand = exCand from rfl, exTaskGluon_ptBinOf]) (by decide)
  have hs : entryState exCand [] = exState := rfl
  refine ⟨rfl, by simp [getMCTruth, exTaskGluon, exTask, exArrayMC, At], ?_, ?_⟩
  · simp only [UserExecCandidate, hs, h]
    simp [exTaskGluon, exTask, releaseVtx, SelState.Fill, SelState.call,
      SelState.UnsetOwnPrimaryVtx, stateAtPt, candFilled, exState, entryState, exCand,
      candSelected, candAssoc, assocCand]
  · simp only [UserExecCandidate, hs, h]
    simp [exTaskGluon, exTask, analyseCandidate, getMCTruth, FillReco, exArrayMC, At]

/-- C2 on the code: under `exTaskLabelZero` the candidate is matched to the valid label
0, the particle at label 0 of `exArrayMCGunB` is found and `CheckOrigin` gives 5
(feed-down), and the candidate is deposited in channel 3 ("bkg"), not in channel 2
("fromB"). -/
theorem C2_label_zero_feed_down_in_bkg :
    exTaskLabelZero.fReadMC = true ∧
    exTaskLabelZero.MatchToMC exCand exArrayMCGunB = 0 ∧
    (At exArrayMCGunB 0).isSome = true ∧
    getMCTruth exTaskLabelZero exArrayMCGunB exCand = (0, 5) ∧
    analyseCandidate ratMath exTaskLabelZero exArrayMCGunB 50 exCand =
      [⟨Hist.fnSparseReco 3, var4nSparse ratMath exTaskLabelZero 50 exCand⟩,
       ⟨Hist.fnSparseRecoThetaPhiStar 3,
         var4nSparseThetaPhiStar ratMath exTaskLabelZero exCand⟩] := by
  have ht : getMCTruth exTaskLabelZero exArrayMCGunB exCand = (0, 5) := by
    simp [getMCTruth, exTaskLabelZero, exTask, exArrayMCGunB, At]
  refine ⟨rfl, rfl, rfl, ht, ?_⟩
  simp only [analyseCandidate, ht]
  simp [FillReco, exTaskLabelZero, exTask]

/-- C3 on the code: under `exTaskLabelZero` the candidate is matched to the valid label
0, the particle at label 0 of `exArrayMCGun` is found (a generated `D*+`), and the
candidate is deposited in channel 3 ("bkg"). -/
theorem C3_label_zero_in_bkg :
    exTaskLabelZero.fReadMC = true ∧
    exTaskLabelZero.MatchToMC exCand exArrayMCGun = 0 ∧
    (At exArrayMCGun 0).isSome = true ∧
    getMCTruth exTaskLabelZero exArrayMCGun exCand = (0, 0) ∧
    analyseCandidate ratMath exTaskLabelZero exArrayMCGun 50 exCand =
      [⟨Hist.fnSparseReco 3, var4nSparse ratMath exTaskLabelZero 50 exCand⟩,
       ⟨Hist.fnSparseRecoThetaPhiStar 3,
         var4nSparseThetaPhiStar ratMath exTaskLabelZero exCand⟩] := by
  have ht : getMCTruth exTaskLabelZero exArrayMCGun exCand = (0, 0) := by
    simp [getMCTruth, exTaskLabelZero, exTask, exArrayMCGun, At]
  refine ⟨rfl, rfl, rfl, ht, ?_⟩
  simp only [analyseCandidate, ht]
  simp [FillReco, exTaskLabelZero, exTask]

/-- The feed-down deposit at `exCand` under `exTaskFeedDown`, which matches it to the
`D*+` from the `B0` at label 6. -/
theorem analyseCandidate_feed_down_example :
    getMCTruth exTaskFeedDown exArrayMC exCand = (6, 5) ∧
    analyseCandidate ratMath exTaskFeedDown exArrayMC 50 exCand =
      [⟨Hist.fnSparseReco 2, var4nSparse ratMath exTaskFeedDown 50 exCand⟩,
       ⟨Hist.fnSparseRecoThetaPhiStar 2,
         var4nSparseThetaPhiStar ratMath exTaskFeedDown exCand⟩] := by
  have ht : getMCTruth exTaskFeedDown exArrayMC exCand = (6, 5) := by
    simp [getMCTruth, exTaskFeedDown, exTask, exArrayMC, At]
  exact ⟨ht, (analyseCandidate_feed_down ratMath exTaskFeedDown exArrayMC 50 exCand rfl
    (by rw [ht]; decide) (by rw [ht])).1⟩

/-- C4 at the prompt `D*+` at label 5 of `exArrayMC` under `exTask`. -/
theorem C4_gen_routing_witness :
    (exDstar.PdgCode.natAbs = 413 ∧ (exTask.CheckDstarDecay exArrayMC exDstar).2.1 ≠ -1 ∧
      0 < (exTask.CheckDstarDecay exArrayMC exDstar).1 ∧
      CheckDaugAcc ratMath exArrayMC 3 (labDauOf exTask exArrayMC exDstar) = some true ∧
      inAcceptance exTask (exTask.IsInFiducialAcceptance (Pt ratMath exDstar.Px exDstar.Py)
        exDstar.Y) true exDstar.Y = true ∧
      At exArrayMC exDstar.DaughterFirst = some exSoftPion) ∧
    ∃ fills, FillMCGenAccPart ratMath exTask exArrayMC 50 5 exDstar = some fills ∧
      ((nFills (Hist.fnSparseMC 0) fills = 1 ∧ nFills (Hist.fnSparseMCThetaPhiStar 0) fills = 1) ↔
        (exTask.CheckOrigin exArrayMC exDstar = 4 ∧
          exTask.IsParticleFromOutOfBunchPileupCollision 5 exArrayMC = false)) ∧
      ((nFills (Hist.fnSparseMC 1) fills = 1 ∧ nFills (Hist.fnSparseMCThetaPhiStar 1) fills = 1) ↔
        (exTask.CheckOrigin exArrayMC exDstar = 5 ∧
          exTask.IsParticleFromOutOfBunchPileupCollision 5 exArrayMC = false)) ∧
      (¬(exTask.CheckOrigin exArrayMC exDstar = 4 ∧
            exTask.IsParticleFromOutOfBunchPileupCollision 5 exArrayMC = false) →
        ¬(exTask.CheckOrigin exArrayMC exDstar = 5 ∧
            exTask.IsParticleFromOutOfBunchPileupCollision 5 exArrayMC = false) →
        fills = []) ∧
      (nFills (Hist.fnSparseMC 0) fills + nFills (Hist.fnSparseMC 1) fills ≤ 1) ∧
      (nFills (Hist.fnSparseMCThetaPhiStar 0) fills +
        nFills (Hist.fnSparseMCThetaPhiStar 1) fills ≤ 1) :=
  have hpdg : exDstar.PdgCode.natAbs = 413 := by decide
  have hlab : (exTask.CheckDstarDecay exArrayMC exDstar).2.1 ≠ -1 := by decide
  have hdeca : 0 < (exTask.CheckDstarDecay exArrayMC exDstar).1 := by decide
  have hdau : CheckDaugAcc ratMath exArrayMC 3 (labDauOf exTask exArrayMC exDstar)
      = some true := by
    have h8 : At exArrayMC 8 = some exSoftPion := by simp [At, exArrayMC]
    have h5 : At exArrayMC 5 = some exDstar := by simp [At, exArrayMC]
    have hm : exSoftPion.Mother = 5 := rfl
    have hk : ¬(|exSoftPion.Eta| > 9 / 10 ∨
        Pt ratMath exSoftPion.Px exSoftPion.Py < 6 / 100) := by
      norm_num [exSoftPion, ratMath, Pt, isqrt, isqrtFrom]
    simp [CheckDaugAcc, CheckDaugAccLoop, labDauOf, exTask, List.range, List.range.loop, h8, hm,
      h5, exDstar, hk]
  have hacc : inAcceptance exTask (exTask.IsInFiducialAcceptance
      (Pt ratMath exDstar.Px exDstar.Py) exDstar.Y) true exDstar.Y = true := by
    simp [inAcceptance, exTask, exDstar]
  have hfirst : At exArrayMC exDstar.DaughterFirst = some exSoftPion := by
    simp [At, exArrayMC, exDstar]
  ⟨⟨hpdg, hlab, hdeca, hdau, hacc, hfirst⟩,
    C4_gen_routing ratMath exTask exArrayMC 50 5 exDstar exSoftPion true hpdg hlab hdeca hdau
      hacc hfirst⟩

/-! ## Pre-selection and the daughter tracks -/

section PreSelectClaims

variable {K : Type} [LinearOrderedField K]

/-- C13: the tracks that `GetProng` resolves are never stored in `arrDauTracks`: whatever
`GetProng` returns, `PreSelect` is called, right after the three `GetProng` calls, on the
array without entries, the candidate is rejected at the pre-selection (counter 15) exactly
when `PreSelect` of the empty array is false, and two runs that differ only in the
resolved daughter tracks give the same result. -/
theorem C13_preselect_ignores_tracks (M : TMath K) (T : Task K)
    (GetProng' : Cand K → ProngOf → Nat → Option AliAODTrack) (dStar dZeroDau vHF : Bool)
    (s : SelState K) :
    IsCandidateSelected M { T with GetProng := GetProng' } dStar dZeroDau vHF s =
      IsCandidateSelected M T dStar dZeroDau vHF s ∧
    (∃ rest, (IsCandidateSelected M T true true true s).2.calls =
      s.calls ++ [Call.GetProng 0, Call.GetProng 1, Call.GetProng 2, Call.PreSelect []]
        ++ rest) ∧
    ((IsCandidateSelected M T true true true s).2.fHistNEvents = s.fHistNEvents ++ [11, 15] ↔
      T.PreSelect [] = false) := by
  refine ⟨?_, ?_, ?_⟩
  · simp only [IsCandidateSelected, prongLoop_eq]
    rfl
  · cases hpre : T.PreSelect []
    · exact ⟨[], by rw [IsCandidateSelected_of_preselect_fail M T s hpre]; simp [callsPreSelect]⟩
    cases hfill : (T.FillRecoCasc s.cand).1
    · exact ⟨[Call.FillRecoCasc], by
        rw [IsCandidateSelected_of_fill_fail M T s hpre hfill]; simp [callsPreSelect]⟩
    by_cases hpt : ptBinOf M T s.cand < 0
    · rw [IsCandidateSelected_of_ptBin_neg M T s hpre hfill hpt]
      exact ⟨_, by simp only [stateAtPt, callsPreSelect, List.append_assoc]; rfl⟩
    by_cases hsel : cutVerdict T s.cand = 0
    · rw [IsCandidateSelected_of_cut_zero M T s hpre hfill (not_lt.mp hpt) hsel]
      exact ⟨_, by simp only [stateAtPt, callsPreSelect, List.append_assoc]; rfl⟩
    · rw [IsCandidateSelected_of_cut_pass M T s hpre hfill (not_lt.mp hpt) hsel]
      exact ⟨_, by simp only [stateAtPt, callsPreSelect, List.append_assoc]; rfl⟩
  · cases hpre : T.PreSelect []
    · rw [IsCandidateSelected_of_preselect_fail M T s hpre]
      simp
    cases hfill : (T.FillRecoCasc s.cand).1
    · rw [IsCandidateSelected_of_fill_fail M T s hpre hfill]
      simp
    by_cases hpt : ptBinOf M T s.cand < 0
    · rw [IsCandidateSelected_of_ptBin_neg M T s hpre hfill hpt]
      simp [stateAtPt]
    by_cases hsel : cutVerdict T s.cand = 0
    · rw [IsCandidateSelected_of_cut_zero M T s hpre hfill (not_lt.mp hpt) hsel]
      simp [stateAtPt]
    · rw [IsCandidateSelected_of_cut_pass M T s hpre hfill (not_lt.mp hpt) hsel]
      simp [stateAtPt]

end PreSelectClaims

/-! ## Daughter acceptance -/

section DaughterClaims

variable {K : Type} [LinearOrderedField K]

/-- The loop of `CheckDaugAcc` over a list of prong indices inside `labDau`, all of whose
resolved daughters have a resolvable mother, returns whether every daughter is in the
stated acceptance. -/
theorem CheckDaugAccLoop_eq (M : TMath K) (arrayMC : List (AliAODMCParticle K))
    (labDau : List Int) (l : List Nat)
    (hl : ∀ i ∈ l, ∃ lab, labDau.get? i = some lab)
    (hm : ∀ i ∈ l, ∀ lab d, labDau.get? i = some lab → At arrayMC lab = some d →
      ∃ mother, At arrayMC d.Mother = some mother) :
    CheckDaugAccLoop M arrayMC labDau l =
      some (l.all fun i =>
        match labDau.get? i with
        | some lab => specDaugInAcc M arrayMC lab
        | none => false) := by
  induction l with
  | nil => rfl
  | cons i rest ih =>
    obtain ⟨lab, hlab⟩ := hl i (List.mem_cons_self i rest)
    have ih' := ih (fun j hj => hl j (List.mem_cons_of_mem i hj))
      (fun j hj => hm j (List.mem_cons_of_mem i hj))
    cases hd : At arrayMC lab with
    | none =>
      simp only [CheckDaugAccLoop, List.all_cons, hlab, hd, specDaugInAcc, Bool.false_and]
    | some d =>
      obtain ⟨mother, hmo⟩ := hm i (List.mem_cons_self i rest) lab d hlab hd
      simp only [CheckDaugAccLoop, List.all_cons, hlab, hd, hmo, specDaugInAcc, specMinPt, ih']
      by_cases hpdg : mother.PdgCode.natAbs = 413
      · simp only [hpdg, decide_True, Bool.not_true, if_true, Bool.false_eq_true, if_false]
        by_cases hcut : |d.Eta| > 9 / 10 ∨ Pt M d.Px d.Py < 6 / 100
        · rw [if_pos hcut]
          rcases hcut with h | h
          · rw [decide_eq_false (not_le.mpr h)]
            simp only [Bool.false_and]
          · rw [decide_eq_false (not_le.mpr h)]
            simp only [Bool.and_false, Bool.false_and]
        · rw [if_neg hcut]
          push_neg at hcut
          rw [decide_eq_true hcut.1, decide_eq_true hcut.2]
          simp only [Bool.and_self, Bool.true_and]
      · simp only [hpdg, decide_False, Bool.not_false, if_true, if_false]
        by_cases hcut : |d.Eta| > 9 / 10 ∨ Pt M d.Px d.Py < 1 / 10
        · rw [if_pos hcut]
          rcases hcut with h | h
          · rw [decide_eq_false (not_le.mpr h)]
            simp only [Bool.false_and]
          · rw [decide_eq_false (not_le.mpr h)]
            simp only [Bool.and_false, Bool.false_and]
        · rw [if_neg hcut]
          push_neg at hcut
          rw [decide_eq_true hcut.1, decide_eq_true hcut.2]
          simp only [Bool.and_self, Bool.true_and]

/-- C14: for a label list with at least `nProng` entries in which every resolved daughter
has a resolvable mother, `CheckDaugAcc` returns a value, and it returns true exactly when
for every `i < nProng` the particle at `labDau[i]` exists, has `|eta| ≤ 0.9` and has
`pt ≥ minPt`, with `minPt` 0.06 when the mother of the daughter has |PDG code| 413 and 0.1
otherwise. -/
theorem C14_CheckDaugAcc_exact (M : TMath K) (arrayMC : List (AliAODMCParticle K))
    (nProng : Nat) (labDau : List Int) (hlen : nProng ≤ labDau.length)
    (hm : ∀ i, i < nProng → ∀ lab d, labDau.get? i = some lab → At arrayMC lab = some d →
      ∃ mother, At arrayMC d.Mother = some mother) :
    ∃ b, CheckDaugAcc M arrayMC (nProng : Int) labDau = some b ∧
      (b = true ↔
        ∀ i, i < nProng → ∃ lab, labDau.get? i = some lab ∧
          specDaugInAcc M arrayMC lab = true) := by
  have hl : ∀ i ∈ List.range nProng, ∃ lab, labDau.get? i = some lab := by
    intro i hi
    have hi' : i < labDau.length := lt_of_lt_of_le (List.mem_range.mp hi) hlen
    exact ⟨labDau.get ⟨i, hi'⟩, List.get?_eq_get hi'⟩
  have h := CheckDaugAccLoop_eq M arrayMC labDau (List.range nProng) hl
    (fun i hi => hm i (List.mem_range.mp hi))
  refine ⟨_, by simpa [CheckDaugAcc] using h, ?_⟩
  rw [List.all_eq_true]
  constructor
  · intro hall i hi
    obtain ⟨lab, hlab⟩ := hl i (List.mem_range.mpr hi)
    have hlab' : labDau[i]? = some lab := by rw [← List.get?_eq_getElem?]; exact hlab
    have := hall i (List.mem_range.mpr hi)
    rw [hlab'] at this
    exact ⟨lab, hlab, this⟩
  · intro hall i hi
    obtain ⟨lab, hlab, hacc⟩ := hall i (List.mem_range.mp hi)
    have hlab' : labDau[i]? = some lab := by rw [← List.get?_eq_getElem?]; exact hlab
    rw [hlab']
    exact hacc

end DaughterClaims

/-- The three labels of `exTask.CheckDstarDecay` resolve to the soft pion of `exArrayMC`,
whose mother is the prompt `D*+`. -/
theorem exArrayMC_mothers (i : Nat) (_hi : i < 3) (lab : Int) (d : AliAODMCParticle ℚ)
    (hlab : [(8 : Int), 8, 8].get? i = some lab) (hd : At exArrayMC lab = some d) :
    ∃ mother, At exArrayMC d.Mother = some mother := by
  have h8 : lab = 8 := by
    have hmem := List.get?_mem hlab
    simpa using hmem
  subst h8
  have hd' : d = exSoftPion := by
    have h : At exArrayMC 8 = some exSoftPion := by simp [At, exArrayMC]
    rw [h] at hd
    exact (Option.some.inj hd).symm
  subst hd'
  exact ⟨exDstar, by simp [At, exArrayMC, exSoftPion]⟩

/-- C14 at the three daughter labels `8, 8, 8` in `exArrayMC`. -/
theorem C14_CheckDaugAcc_exact_witness :
    (3 ≤ [(8 : Int), 8, 8].length ∧
      ∀ i, i < 3 → ∀ lab d, [(8 : Int), 8, 8].get? i = some lab → At exArrayMC lab = some d →
        ∃ mother, At exArrayMC d.Mother = some mother) ∧
    ∃ b, CheckDaugAcc ratMath exArrayMC ((3 : Nat) : Int) [8, 8, 8] = some b ∧
      (b = true ↔
        ∀ i, i < 3 → ∃ lab, [(8 : Int), 8, 8].get? i = some lab ∧
          specDaugInAcc ratMath exArrayMC lab = true) :=
  ⟨⟨by decide, exArrayMC_mothers⟩,
    C14_CheckDaugAcc_exact ratMath exArrayMC 3 [8, 8, 8] (by decide) exArrayMC_mothers⟩

/-! ## Zero denominators in the angular transform -/

section DegeneracyClaims

variable {K : Type} [LinearOrderedField K]

/-- C11 (as amended): the transform has no guard on its denominators. For every accepted
candidate the two observable vectors are deposited by the routing alone (in channel 0
when truth is not requested), and when `pt` or `p` is zero the production and helicity
cosines deposited are the ones computed with the zero denominator; likewise every
generated particle that passes the acceptance gate has its vectors deposited by origin
and pile-up flag alone, with the cosines computed with the zero denominator. -/
theorem C11_no_degeneracy_guard (M : TMath K) (T : Task K)
    (arrayMC : List (AliAODMCParticle K)) (centrality : K) (c : Cand K) (iPart : Nat)
    (mcPart dauFirst : AliAODMCParticle K) (isDaugInAcc : Bool) :
    (T.fReadMC = false →
      analyseCandidate M T arrayMC centrality c =
        [⟨Hist.fnSparseReco 0, var4nSparse M T centrality c⟩,
         ⟨Hist.fnSparseRecoThetaPhiStar 0, var4nSparseThetaPhiStar M T c⟩]) ∧
    (analyseCandidate M T arrayMC centrality c =
      FillReco T.fReadMC (getMCTruth T arrayMC c).1 (getMCTruth T arrayMC c).2
        (var4nSparse M T centrality c) (var4nSparseThetaPhiStar M T c)) ∧
    (Pt M c.Px c.Py = 0 →
      (var4nSparse M T centrality c).get? 4 =
        some (cosThetaStar M (normalVec c.Px c.Py 0) (recoThreeVecPiCM M T c))) ∧
    (P M c.Px c.Py c.Pz = 0 →
      (var4nSparse M T centrality c).get? 5 =
        some (cosThetaStar M (helicityVec c.Px c.Py c.Pz 0) (recoThreeVecPiCM M T c))) ∧
    (mcPart.PdgCode.natAbs = 413 → (T.CheckDstarDecay arrayMC mcPart).2.1 ≠ -1 →
      0 < (T.CheckDstarDecay arrayMC mcPart).1 →
      CheckDaugAcc M arrayMC 3 (labDauOf T arrayMC mcPart) = some isDaugInAcc →
      inAcceptance T (T.IsInFiducialAcceptance (Pt M mcPart.Px mcPart.Py) mcPart.Y)
        isDaugInAcc mcPart.Y = true →
      At arrayMC mcPart.DaughterFirst = some dauFirst →
      FillMCGenAccPart M T arrayMC centrality iPart mcPart =
        some (FillMC (T.CheckOrigin arrayMC mcPart)
          (T.IsParticleFromOutOfBunchPileupCollision iPart arrayMC)
          (var4nSparseAcc M centrality mcPart dauFirst)
          (var4nSparseAccThetaPhiStar M mcPart dauFirst))) ∧
    (Pt M mcPart.Px mcPart.Py = 0 →
      (var4nSparseAcc M centrality mcPart dauFirst).get? 3 =
        some (cosThetaStar M (normalVec mcPart.Px mcPart.Py 0)
          (Boost M (PxPyPzMVector.BoostToCM M ⟨mcPart.Px, mcPart.Py, mcPart.Pz, mcPart.M⟩)
            ⟨dauFirst.Px, dauFirst.Py, dauFirst.Pz, dauFirst.M⟩).Vect)) ∧
    (P M mcPart.Px mcPart.Py mcPart.Pz = 0 →
      (var4nSparseAcc M centrality mcPart dauFirst).get? 4 =
        some (cosThetaStar M (helicityVec mcPart.Px mcPart.Py mcPart.Pz 0)
          (Boost M (PxPyPzMVector.BoostToCM M ⟨mcPart.Px, mcPart.Py, mcPart.Pz, mcPart.M⟩)
            ⟨dauFirst.Px, dauFirst.Py, dauFirst.Pz, dauFirst.M⟩).Vect)) := by
  refine ⟨fun h => ?_, rfl, fun h => ?_, fun h => ?_, ?_, fun h => ?_, fun h => ?_⟩
  · simp [analyseCandidate, FillReco, h]
  · simp [var4nSparse, recoObs, angularObs, h]
  · simp [var4nSparse, recoObs, angularObs, h]
  · intro hpdg hlab hdeca hdau hacc hfirst
    simp [FillMCGenAccPart, hpdg, hlab, hdeca, hdau, hacc, hfirst]
  · simp [var4nSparseAcc, genObs, angularObs, h]
  · simp [var4nSparseAcc, genObs, angularObs, h]

end DegeneracyClaims

theorem exTaskNoMC_ptBinOf : ptBinOf ratMath exTaskNoMC exCandZeroPt = 0 := by
  norm_num [ptBinOf, candAssoc, candFilled, assocCand, exTaskNoMC, exTask, exCandZeroPt, exCand,
    ratMath, Pt, isqrt, isqrtFrom, Cand.SetOwnPrimaryVtx]

theorem exTask_CheckDaugAcc (mcPart : AliAODMCParticle ℚ) :
    CheckDaugAcc ratMath exArrayMC 3 (labDauOf exTask exArrayMC mcPart) = some true := by
  have h8 : At exArrayMC 8 = some exSoftPion := by simp [At, exArrayMC]
  have h5 : At exArrayMC 5 = some exDstar := by simp [At, exArrayMC]
  have hm : exSoftPion.Mother = 5 := rfl
  have hk : ¬(|exSoftPion.Eta| > 9 / 10 ∨
      Pt ratMath exSoftPion.Px exSoftPion.Py < 6 / 100) := by
    norm_num [exSoftPion, ratMath, Pt, isqrt, isqrtFrom]
  simp [CheckDaugAcc, CheckDaugAccLoop, labDauOf, exTask, List.range, List.range.loop, h8, hm,
    h5, exDstar, hk]

/-- C11 fails as stated: `exCandZeroPt` has `pt = 0`, it is accepted under `exTaskNoMC`
(the counter 13 is filled) and its two observable vectors are deposited in channel 0; the
generated `exDstarAtRest` has `pt = 0` and `p = 0`, passes the acceptance gate under
`exTask` and its two vectors are deposited in the acceptance channel 0. -/
theorem C11_counterexample :
    (Pt ratMath exCandZeroPt.Px exCandZeroPt.Py = 0 ∧
      (UserExecCandidate ratMath exTaskNoMC exArrayMC 50 true exCandZeroPt []).1.fHistNEvents
        = [11, 12, 13] ∧
      (UserExecCandidate ratMath exTaskNoMC exArrayMC 50 true exCandZeroPt []).2.map Fill.hist
        = [Hist.fnSparseReco 0, Hist.fnSparseRecoThetaPhiStar 0]) ∧
    (Pt ratMath exDstarAtRest.Px exDstarAtRest.Py = 0 ∧
      P ratMath exDstarAtRest.Px exDstarAtRest.Py exDstarAtRest.Pz = 0 ∧
      (FillMCGenAccPart ratMath exTask exArrayMC 50 5 exDstarAtRest).map
          (fun fills => fills.map Fill.hist)
        = some [Hist.fnSparseMC 0, Hist.fnSparseMCThetaPhiStar 0]) := by
  have hpt0 : Pt ratMath exCandZeroPt.Px exCandZeroPt.Py = 0 := by
    norm_num [exCandZeroPt, exCand, ratMath, Pt, isqrt, isqrtFrom]
  have h := IsCandidateSelected_of_cut_pass ratMath exTaskNoMC (entryState exCandZeroPt [])
    rfl rfl (by rw [show (entryState exCandZeroPt []).cand = exCandZeroPt from rfl,
      exTaskNoMC_ptBinOf]) (by decide)
  refine ⟨⟨hpt0, ?_, ?_⟩, ?_, ?_, ?_⟩
  · simp only [UserExecCandidate, h]
    simp [exTaskNoMC, exTask, releaseVtx, SelState.Fill, SelState.call,
      SelState.UnsetOwnPrimaryVtx, stateAtPt, candFilled, entryState, exCandZeroPt, exCand,
      candSelected, candAssoc, assocCand]
  · simp only [UserExecCandidate, h]
    simp [exTaskNoMC, exTask, analyseCandidate, FillReco]
  · norm_num [exDstarAtRest, ratMath, Pt, isqrt, isqrtFrom]
  · norm_num [exDstarAtRest, ratMath, P, isqrt, isqrtFrom]
  · have hfirst : At exArrayMC exDstarAtRest.DaughterFirst = some exSoftPion := by
      simp [At, exArrayMC, exDstarAtRest]
    have horig : exTask.CheckOrigin exArrayMC exDstarAtRest = 4 := by
      simp [exTask, exDstarAtRest, exArrayMC, At]
    have hacc : inAcceptance exTask (exTask.IsInFiducialAcceptance
        (Pt ratMath exDstarAtRest.Px exDstarAtRest.Py) exDstarAtRest.Y) true
        exDstarAtRest.Y = true := by
      simp [inAcceptance, exTask, exDstarAtRest]
    have hpart : FillMCGenAccPart ratMath exTask exArrayMC 50 5 exDstarAtRest =
        some (FillMC 4 false (var4nSparseAcc ratMath 50 exDstarAtRest exSoftPion)
          (var4nSparseAccThetaPhiStar ratMath exDstarAtRest exSoftPion)) := by
      have hpdg : exDstarAtRest.PdgCode.natAbs = 413 := by decide
      have hlab : (exTask.CheckDstarDecay exArrayMC exDstarAtRest).2.1 ≠ -1 := by decide
      have hdeca : 0 < (exTask.CheckDstarDecay exArrayMC exDstarAtRest).1 := by decide
      have hpu : exTask.IsParticleFromOutOfBunchPileupCollision 5 exArrayMC = false := rfl
      simp [FillMCGenAccPart, hpdg, hlab, hdeca, exTask_CheckDaugAcc, hacc, hfirst, horig, hpu]
    rw [hpart]
    simp [FillMC]

/-! ## The boost, component by component -/

section BoostFacts

variable {K : Type} [LinearOrderedField K]

/-- The boost velocity has no y component when the momentum has none. -/
theorem BoostToCM_Y_of_Py_zero (tm : TMath K) (v : PxPyPzMVector K) (h : v.Py = 0) :
    (v.BoostToCM tm).Y = 0 := by
  unfold PxPyPzMVector.BoostToCM
  split_ifs <;> simp [h]

/-- A boost with no y component leaves the y component of the momentum as it is. -/
theorem Boost_Vect_Y_of_Y_zero (tm : TMath K) (b : XYZVector K) (v : PxPyPzMVector K)
    (hb : b.Y = 0) : (Boost tm b v).Vect.Y = v.Py := by
  simp [Boost, PxPyPzEVector.toM, PxPyPzMVector.Vect, hb]

/-- The momentum components of a sum of four-vectors add. -/
theorem PxPyPzMVector.add_Py (tm : TMath K) (a b : PxPyPzMVector K) :
    (a.add tm b).Py = a.Py + b.Py := by
  simp [PxPyPzMVector.add, PxPyPzEVector.toM]

end BoostFacts

/-! ## The azimuthal axis -/

/-- C15: the phi axis of `fnSparseRecoThetaPhiStar` and of `fnSparseMCThetaPhiStar` runs
from 0 to pi, while `phiStarBeam`, computed with the exact `atan2`, lies in `(-pi, pi]`
and is negative for every probe vector with a negative y component. For the generated
`exMotherX` (of positive pT) with first daughter `exPionDown`, and for the candidate
`exCandDown` under any configuration, the deposited phi is below the lower edge of the
axis. The polar angle, computed with the exact `acos`, always lies in `[0, pi]`. -/
theorem C15_phi_axis_range (M : TMath ℝ) (hS : M.Sqrt = Real.sqrt)
    (hA : M.ACos = Real.arccos) (hT : M.ATan2 = fun y x => Complex.arg ⟨x, y⟩) (ptMax : ℝ) :
    ((xminThetaPhiReco : List ℝ).get? 3 = some 0 ∧
      (xmaxThetaPhiReco Real.pi ptMax).get? 3 = some Real.pi ∧
      (xminThetaPhiAcc : List ℝ).get? 2 = some 0 ∧
      (xmaxThetaPhiAcc Real.pi ptMax).get? 2 = some Real.pi) ∧
    (∀ v : XYZVector ℝ, -Real.pi < phiStar M v ∧ phiStar M v ≤ Real.pi) ∧
    (∀ v : XYZVector ℝ, v.Y < 0 → phiStar M v < 0) ∧
    (0 < Pt M (exMotherX ℝ).Px (exMotherX ℝ).Py ∧
      (var4nSparseAccThetaPhiStar M (exMotherX ℝ) (exPionDown ℝ)).get? 2 =
        some (phiStar M (genThreeVecPiCM M (exMotherX ℝ) (exPionDown ℝ))) ∧
      phiStar M (genThreeVecPiCM M (exMotherX ℝ) (exPionDown ℝ)) < 0) ∧
    (∀ T : Task ℝ,
      (var4nSparseThetaPhiStar M T (exCandDown ℝ)).get? 3 =
        some (phiStar M (recoThreeVecPiCM M T (exCandDown ℝ))) ∧
      phiStar M (recoThreeVecPiCM M T (exCandDown ℝ)) < 0) ∧
    (∀ v : XYZVector ℝ, 0 ≤ thetaStar M beamVec v ∧ thetaStar M beamVec v ≤ Real.pi) := by
  have hneg : ∀ v : XYZVector ℝ, v.Y < 0 → phiStar M v < 0 := by
    intro v hv
    simp only [phiStar, hT]
    exact Complex.arg_neg_iff.mpr hv
  refine ⟨⟨rfl, rfl, rfl, rfl⟩, fun v => ?_, hneg, ⟨?_, rfl, ?_⟩, fun T => ⟨rfl, ?_⟩, fun v => ?_⟩
  · simp only [phiStar, hT]
    exact ⟨Complex.neg_pi_lt_arg _, Complex.arg_le_pi _⟩
  · simp only [Pt, hS, exMotherX]
    exact Real.sqrt_pos.mpr (by norm_num)
  · apply hneg
    have hy : (genThreeVecPiCM M (exMotherX ℝ) (exPionDown ℝ)).Y = -1 := by
      unfold genThreeVecPiCM
      rw [Boost_Vect_Y_of_Y_zero _ _ _ (BoostToCM_Y_of_Py_zero M _ (by simp [exMotherX]))]
      simp [exPionDown]
    rw [hy]
    norm_num
  · apply hneg
    have hy : (recoThreeVecPiCM M T (exCandDown ℝ)).Y = -1 := by
      unfold recoThreeVecPiCM
      rw [Boost_Vect_Y_of_Y_zero _ _ _ (BoostToCM_Y_of_Py_zero M _
        (by rw [PxPyPzMVector.add_Py]; simp [exCandDown]))]
      simp [exCandDown]
    rw [hy]
    norm_num
  · simp only [thetaStar, hA]
    exact ⟨Real.arccos_nonneg _, Real.arccos_le_pi _⟩

/-- C15 with the exact square root, arc cosine and `atan2`, and a pT axis up to 50. -/
theorem C15_phi_axis_range_witness :
    ((⟨Real.sqrt, Real.arccos, fun y x => Complex.arg ⟨x, y⟩⟩ : TMath ℝ).Sqrt = Real.sqrt ∧
      (⟨Real.sqrt, Real.arccos, fun y x => Complex.arg ⟨x, y⟩⟩ : TMath ℝ).ACos = Real.arccos ∧
      (⟨Real.sqrt, Real.arccos, fun y x => Complex.arg ⟨x, y⟩⟩ : TMath ℝ).ATan2 =
        fun y x => Complex.arg ⟨x, y⟩) ∧
    (0 < Pt (⟨Real.sqrt, Real.arccos, fun y x => Complex.arg ⟨x, y⟩⟩ : TMath ℝ)
        (exMotherX ℝ).Px (exMotherX ℝ).Py ∧
      (var4nSparseAccThetaPhiStar ⟨Real.sqrt, Real.arccos, fun y x => Complex.arg ⟨x, y⟩⟩
          (exMotherX ℝ) (exPionDown ℝ)).get? 2 =
        some (phiStar ⟨Real.sqrt, Real.arccos, fun y x => Complex.arg ⟨x, y⟩⟩
          (genThreeVecPiCM ⟨Real.sqrt, Real.arccos, fun y x => Complex.arg ⟨x, y⟩⟩
            (exMotherX ℝ) (exPionDown ℝ))) ∧
      phiStar (⟨Real.sqrt, Real.arccos, fun y x => Complex.arg ⟨x, y⟩⟩ : TMath ℝ)
        (genThreeVecPiCM ⟨Real.sqrt, Real.arccos, fun y x => Complex.arg ⟨x, y⟩⟩
          (exMotherX ℝ) (exPionDown ℝ)) < 0) :=
  ⟨⟨rfl, rfl, rfl⟩,
    (C15_phi_axis_range ⟨Real.sqrt, Real.arccos, fun y x => Complex.arg ⟨x, y⟩⟩ rfl rfl rfl
      50).2.2.2.1⟩

/-! ## Rotation about the beam axis: the boost and the axes -/

section RotationFacts

variable {K : Type} [LinearOrderedField K]

theorem PxPyPzMVector.rotZ_P2 (c s : K) (hcs : c * c + s * s = 1) (v : PxPyPzMVector K) :
    (v.rotZ c s).P2 = v.P2 := by
  simp only [PxPyPzMVector.P2, PxPyPzMVector.rotZ]
  linear_combination (v.Px * v.Px + v.Py * v.Py) * hcs

theorem PxPyPzMVector.rotZ_E (tm : TMath K) (c s : K) (hcs : c * c + s * s = 1)
    (v : PxPyPzMVector K) : (v.rotZ c s).E tm = v.E tm := by
  have hM2 : (v.rotZ c s).M2 = v.M2 := rfl
  simp only [PxPyPzMVector.E, PxPyPzMVector.E2, PxPyPzMVector.rotZ_P2 c s hcs, hM2]

theorem PxPyPzMVector.rotZ_BoostToCM (tm : TMath K) (c s : K) (hcs : c * c + s * s = 1)
    (v : PxPyPzMVector K) :
    (v.rotZ c s).BoostToCM tm = (v.BoostToCM tm).rotZ c s := by
  simp only [PxPyPzMVector.BoostToCM, PxPyPzMVector.rotZ_E tm c s hcs]
  split_ifs
  · simp [XYZVector.rotZ]
  · simp only [PxPyPzMVector.rotZ, XYZVector.rotZ, XYZVector.mk.injEq]
    refine ⟨by ring, by ring, trivial⟩

theorem Boost_rotZ (tm : TMath K) (c s : K) (hcs : c * c + s * s = 1) (b : XYZVector K)
    (v : PxPyPzMVector K) :
    (Boost tm (b.rotZ c s) (v.rotZ c s)).Vect = (Boost tm b v).Vect.rotZ c s := by
  have hbp : (c * b.X - s * b.Y) * (c * b.X - s * b.Y) +
      (s * b.X + c * b.Y) * (s * b.X + c * b.Y) + b.Z * b.Z =
      b.X * b.X + b.Y * b.Y + b.Z * b.Z := by
    linear_combination (b.X * b.X + b.Y * b.Y) * hcs
  have hE := PxPyPzMVector.rotZ_E tm c s hcs v
  simp only [Boost, PxPyPzEVector.toM, PxPyPzMVector.Vect, XYZVector.rotZ, hbp, hE]
  simp only [PxPyPzMVector.rotZ, XYZVector.mk.injEq]
  generalize 1 / tm.Sqrt (1 - (b.X * b.X + b.Y * b.Y + b.Z * b.Z)) = g
  generalize v.E tm = t
  refine ⟨?_, ?_, ?_⟩
  · linear_combination
      (g * g / (1 + g) * (c * b.X - s * b.Y) * (b.X * v.Px + b.Y * v.Py)) * hcs
  · linear_combination
      (g * g / (1 + g) * (s * b.X + c * b.Y) * (b.X * v.Px + b.Y * v.Py)) * hcs
  · linear_combination (g * g / (1 + g) * b.Z * (b.X * v.Px + b.Y * v.Py)) * hcs

theorem genThreeVecPiCM_rotZ (M : TMath K) (c s : K) (hcs : c * c + s * s = 1)
    (mcPart dauFirst : AliAODMCParticle K) :
    genThreeVecPiCM M (mcPart.rotZ c s) (dauFirst.rotZ c s) =
      (genThreeVecPiCM M mcPart dauFirst).rotZ c s := by
  have h := Boost_rotZ M c s hcs
    ((⟨mcPart.Px, mcPart.Py, mcPart.Pz, mcPart.M⟩ : PxPyPzMVector K).BoostToCM M)
    ⟨dauFirst.Px, dauFirst.Py, dauFirst.Pz, dauFirst.M⟩
  rw [← PxPyPzMVector.rotZ_BoostToCM M c s hcs] at h
  exact h

theorem XYZVector.rotZ_Dot (c s : K) (hcs : c * c + s * s = 1) (a v : XYZVector K) :
    (a.rotZ c s).Dot (v.rotZ c s) = a.Dot v := by
  simp only [XYZVector.Dot, XYZVector.rotZ]
  linear_combination (a.X * v.X + a.Y * v.Y) * hcs

theorem XYZVector.rotZ_Mag2 (c s : K) (hcs : c * c + s * s = 1) (v : XYZVector K) :
    (v.rotZ c s).Mag2 = v.Mag2 := by
  simp only [XYZVector.Mag2, XYZVector.rotZ]
  linear_combination (v.X * v.X + v.Y * v.Y) * hcs

theorem cosThetaStar_rotZ (M : TMath K) (c s : K) (hcs : c * c + s * s = 1)
    (a v : XYZVector K) :
    cosThetaStar M (a.rotZ c s) (v.rotZ c s) = cosThetaStar M a v := by
  simp only [cosThetaStar, XYZVector.rotZ_Dot c s hcs, XYZVector.rotZ_Mag2 c s hcs]

theorem thetaStar_rotZ (M : TMath K) (c s : K) (hcs : c * c + s * s = 1)
    (a v : XYZVector K) :
    thetaStar M (a.rotZ c s) (v.rotZ c s) = thetaStar M a v := by
  simp only [thetaStar, XYZVector.rotZ_Dot c s hcs, XYZVector.rotZ_Mag2 c s hcs]

theorem Pt_rotZ (M : TMath K) (c s : K) (hcs : c * c + s * s = 1) (px py : K) :
    Pt M (c * px - s * py) (s * px + c * py) = Pt M px py := by
  have h : (c * px - s * py) * (c * px - s * py) + (s * px + c * py) * (s * px + c * py) =
      px * px + py * py := by
    linear_combination (px * px + py * py) * hcs
  simp only [Pt, h]

theorem P_rotZ (M : TMath K) (c s : K) (hcs : c * c + s * s = 1) (px py pz : K) :
    P M (c * px - s * py) (s * px + c * py) pz = P M px py pz := by
  have h : (c * px - s * py) * (c * px - s * py) + (s * px + c * py) * (s * px + c * py) +
      pz * pz = px * px + py * py + pz * pz := by
    linear_combination (px * px + py * py) * hcs
  simp only [P, h]

theorem normalVec_rotZ (c s px py pt : K) :
    normalVec (c * px - s * py) (s * px + c * py) pt = (normalVec px py pt).rotZ c s := by
  simp only [normalVec, XYZVector.rotZ, XYZVector.mk.injEq]
  refine ⟨by ring, by ring, trivial⟩

theorem helicityVec_rotZ (c s px py pz p : K) :
    helicityVec (c * px - s * py) (s * px + c * py) pz p =
      (helicityVec px py pz p).rotZ c s := by
  simp only [helicityVec, XYZVector.rotZ, XYZVector.mk.injEq]
  refine ⟨by ring, by ring, trivial⟩

theorem beamVec_rotZ (c s : K) : (beamVec : XYZVector K).rotZ c s = beamVec := by
  simp [beamVec, XYZVector.rotZ]

end RotationFacts

/-! ## Rotation about the beam axis: the observables -/

theorem genObs_eq {K : Type} [LinearOrderedField K] (M : TMath K)
    (mcPart dauFirst : AliAODMCParticle K) :
    genObs M mcPart dauFirst =
      angularObs M mcPart.Px mcPart.Py mcPart.Pz (Pt M mcPart.Px mcPart.Py)
        (P M mcPart.Px mcPart.Py mcPart.Pz) (genThreeVecPiCM M mcPart dauFirst) := rfl

theorem cosThetaStar_beam_rotZ {K : Type} [LinearOrderedField K] (M : TMath K) (c s : K)
    (hcs : c * c + s * s = 1) (v : XYZVector K) :
    cosThetaStar M beamVec (v.rotZ c s) = cosThetaStar M beamVec v := by
  have h := cosThetaStar_rotZ M c s hcs beamVec v
  rwa [beamVec_rotZ] at h

theorem thetaStar_beam_rotZ {K : Type} [LinearOrderedField K] (M : TMath K) (c s : K)
    (hcs : c * c + s * s = 1) (v : XYZVector K) :
    thetaStar M beamVec (v.rotZ c s) = thetaStar M beamVec v := by
  have h := thetaStar_rotZ M c s hcs beamVec v
  rwa [beamVec_rotZ] at h

/-- The cosines and the polar angle of a generated particle are unchanged when particle
and daughter are rotated about the z axis. -/
theorem genObs_rotZ {K : Type} [LinearOrderedField K] (M : TMath K) (c s : K)
    (hcs : c * c + s * s = 1) (mcPart dauFirst : AliAODMCParticle K) :
    (genObs M (mcPart.rotZ c s) (dauFirst.rotZ c s)).cosThetaStarBeam =
      (genObs M mcPart dauFirst).cosThetaStarBeam ∧
    (genObs M (mcPart.rotZ c s) (dauFirst.rotZ c s)).cosThetaStarProd =
      (genObs M mcPart dauFirst).cosThetaStarProd ∧
    (genObs M (mcPart.rotZ c s) (dauFirst.rotZ c s)).cosThetaStarHelicity =
      (genObs M mcPart dauFirst).cosThetaStarHelicity ∧
    (genObs M (mcPart.rotZ c s) (dauFirst.rotZ c s)).thetaStarBeam =
      (genObs M mcPart dauFirst).thetaStarBeam ∧
    (genObs M (mcPart.rotZ c s) (dauFirst.rotZ c s)).phiStarBeam =
      phiStar M ((genThreeVecPiCM M mcPart dauFirst).rotZ c s) := by
  have hPx : (mcPart.rotZ c s).Px = c * mcPart.Px - s * mcPart.Py := rfl
  have hPy : (mcPart.rotZ c s).Py = s * mcPart.Px + c * mcPart.Py := rfl
  have hPz : (mcPart.rotZ c s).Pz = mcPart.Pz := rfl
  simp only [genObs_eq, angularObs, hPx, hPy, hPz, genThreeVecPiCM_rotZ M c s hcs,
    Pt_rotZ M c s hcs, P_rotZ M c s hcs, normalVec_rotZ, helicityVec_rotZ,
    cosThetaStar_rotZ M c s hcs, cosThetaStar_beam_rotZ M c s hcs,
    thetaStar_beam_rotZ M c s hcs, and_self]

/-- With the exact `atan2`, a rotation about the z axis by `α` shifts the azimuthal angle
of a vector with a transverse part by `α`, up to a multiple of `2π`. -/
theorem phiStar_rotZ_shift (M : TMath ℝ) (hT : M.ATan2 = fun y x => Complex.arg ⟨x, y⟩)
    (α : ℝ) (v : XYZVector ℝ) (hv : v.X ≠ 0 ∨ v.Y ≠ 0) :
    ∃ k : ℤ, phiStar M (v.rotZ (Real.cos α) (Real.sin α)) =
      phiStar M v + α + 2 * Real.pi * k := by
  have hz : (⟨v.X, v.Y⟩ : ℂ) ≠ 0 := by
    intro h
    have hre := congrArg Complex.re h
    have him := congrArg Complex.im h
    simp only [Complex.zero_re, Complex.zero_im] at hre him
    rcases hv with hv | hv
    · exact hv hre
    · exact hv him
  have he : (⟨Real.cos α, Real.sin α⟩ : ℂ) ≠ 0 := by
    intro h
    have hre := congrArg Complex.re h
    have him := congrArg Complex.im h
    simp only [Complex.zero_re, Complex.zero_im] at hre him
    have := Real.cos_sq_add_sin_sq α
    rw [hre, him] at this
    norm_num at this
  have hmul : (⟨Real.cos α * v.X - Real.sin α * v.Y, Real.sin α * v.X + Real.cos α * v.Y⟩ : ℂ)
      = (⟨Real.cos α, Real.sin α⟩ : ℂ) * ⟨v.X, v.Y⟩ := by
    apply Complex.ext
    · simp [Complex.mul_re]
    · simp [Complex.mul_im]
      ring
  have hearg : ((Complex.arg ⟨Real.cos α, Real.sin α⟩ : ℝ) : Real.Angle) = (α : Real.Angle) := by
    have h := Complex.arg_cos_add_sin_mul_I_coe_angle (α : Real.Angle)
    rw [Real.Angle.cos_coe, Real.Angle.sin_coe] at h
    have he' : (⟨Real.cos α, Real.sin α⟩ : ℂ) =
        (Real.cos α : ℂ) + (Real.sin α : ℂ) * Complex.I := by
      apply Complex.ext <;> simp [-Complex.ofReal_cos, -Complex.ofReal_sin]
    rw [he']
    exact h
  have h := Complex.arg_mul_coe_angle he hz
  rw [hearg, ← Real.Angle.coe_add] at h
  obtain ⟨k, hk⟩ := Real.Angle.angle_eq_iff_two_pi_dvd_sub.mp h
  refine ⟨k, ?_⟩
  simp only [phiStar, hT, XYZVector.rotZ, hmul]
  linarith

/-! ## Claim on the rotation about the beam axis -/

/-- C12 (as amended): with the exact `atan2`, rotating the lab momenta of a generated
particle and of its first daughter about the z axis by `α` leaves the beam, production
and helicity cosines and the polar angle `thetaStarBeam` unchanged; when the probe vector
has a non-zero transverse part, `phiStarBeam` is shifted by `α` up to a multiple of `2π`,
so it is not invariant for `α` not a multiple of `2π`; when the probe vector has no
transverse part, `phiStarBeam` is 0 before and after the rotation. -/
theorem C12_rotation_about_beam (M : TMath ℝ)
    (hT : M.ATan2 = fun y x => Complex.arg ⟨x, y⟩)
    (mcPart dauFirst : AliAODMCParticle ℝ) (α : ℝ) :
    ((genObs M (mcPart.rotZ (Real.cos α) (Real.sin α))
        (dauFirst.rotZ (Real.cos α) (Real.sin α))).cosThetaStarBeam =
      (genObs M mcPart dauFirst).cosThetaStarBeam ∧
    (genObs M (mcPart.rotZ (Real.cos α) (Real.sin α))
        (dauFirst.rotZ (Real.cos α) (Real.sin α))).cosThetaStarProd =
      (genObs M mcPart dauFirst).cosThetaStarProd ∧
    (genObs M (mcPart.rotZ (Real.cos α) (Real.sin α))
        (dauFirst.rotZ (Real.cos α) (Real.sin α))).cosThetaStarHelicity =
      (genObs M mcPart dauFirst).cosThetaStarHelicity ∧
    (genObs M (mcPart.rotZ (Real.cos α) (Real.sin α))
        (dauFirst.rotZ (Real.cos α) (Real.sin α))).thetaStarBeam =
      (genObs M mcPart dauFirst).thetaStarBeam) ∧
    ((genThreeVecPiCM M mcPart dauFirst).X ≠ 0 ∨ (genThreeVecPiCM M mcPart dauFirst).Y ≠ 0 →
      ∃ k : ℤ,
        (genObs M (mcPart.rotZ (Real.cos α) (Real.sin α))
          (dauFirst.rotZ (Real.cos α) (Real.sin α))).phiStarBeam =
        (genObs M mcPart dauFirst).phiStarBeam + α + 2 * Real.pi * k) ∧
    ((genThreeVecPiCM M mcPart dauFirst).X ≠ 0 ∨ (genThreeVecPiCM M mcPart dauFirst).Y ≠ 0 →
      (∀ n : ℤ, α ≠ 2 * Real.pi * n) →
      (genObs M (mcPart.rotZ (Real.cos α) (Real.sin α))
          (dauFirst.rotZ (Real.cos α) (Real.sin α))).phiStarBeam ≠
        (genObs M mcPart dauFirst).phiStarBeam) ∧
    ((genThreeVecPiCM M mcPart dauFirst).X = 0 → (genThreeVecPiCM M mcPart dauFirst).Y = 0 →
      (genObs M (mcPart.rotZ (Real.cos α) (Real.sin α))
          (dauFirst.rotZ (Real.cos α) (Real.sin α))).phiStarBeam = 0 ∧
      (genObs M mcPart dauFirst).phiStarBeam = 0) := by
  have hcs : Real.cos α * Real.cos α + Real.sin α * Real.sin α = 1 := by
    rw [← sq, ← sq]
    exact Real.cos_sq_add_sin_sq α
  obtain ⟨h1, h2, h3, h4, h5⟩ := genObs_rotZ M (Real.cos α) (Real.sin α) hcs mcPart dauFirst
  have hphi : (genObs M mcPart dauFirst).phiStarBeam =
      phiStar M (genThreeVecPiCM M mcPart dauFirst) := rfl
  have hshift := phiStar_rotZ_shift M hT α (genThreeVecPiCM M mcPart dauFirst)
  refine ⟨⟨h1, h2, h3, h4⟩, ?_, ?_, ?_⟩
  · intro hv
    rw [h5, hphi]
    exact hshift hv
  · intro hv hα heq
    obtain ⟨k, hk⟩ := hshift hv
    rw [h5, hphi] at heq
    rw [heq] at hk
    exact hα (-k) (by push_cast; linarith)
  · intro hx hy
    rw [h5, hphi]
    have h0 : (⟨0, 0⟩ : ℂ) = 0 := Complex.ext rfl rfl
    simp only [phiStar, hT, XYZVector.rotZ, hx, hy, mul_zero, sub_zero, add_zero, h0,
      Complex.arg_zero, and_self]

/-- C12 (as amended) at `exMotherX` with first daughter `exPionDown` and the angle 1. -/
theorem C12_rotation_about_beam_witness :
    ((⟨Real.sqrt, Real.arccos, fun y x => Complex.arg ⟨x, y⟩⟩ : TMath ℝ).ATan2 = fun y x => Complex.arg ⟨x, y⟩) ∧
    (((genObs (⟨Real.sqrt, Real.arccos, fun y x => Complex.arg ⟨x, y⟩⟩ : TMath ℝ) ((exMotherX ℝ).rotZ (Real.cos (1 : ℝ)) (Real.sin (1 : ℝ)))
        ((exPionDown ℝ).rotZ (Real.cos (1 : ℝ)) (Real.sin (1 : ℝ)))).cosThetaStarBeam =
      (genObs (⟨Real.sqrt, Real.arccos, fun y x => Complex.arg ⟨x, y⟩⟩ : TMath ℝ) (exMotherX ℝ) (exPionDown ℝ)).cosThetaStarBeam ∧
    (genObs (⟨Real.sqrt, Real.arccos, fun y x => Complex.arg ⟨x, y⟩⟩ : TMath ℝ) ((exMotherX ℝ).rotZ (Real.cos (1 : ℝ)) (Real.sin (1 : ℝ)))
        ((exPionDown ℝ).rotZ (Real.cos (1 : ℝ)) (Real.sin (1 : ℝ)))).cosThetaStarProd =
      (genObs (⟨Real.sqrt, Real.arccos, fun y x => Complex.arg ⟨x, y⟩⟩ : TMath ℝ) (exMotherX ℝ) (exPionDown ℝ)).cosThetaStarProd ∧
    (genObs (⟨Real.sqrt, Real.arccos, fun y x => Complex.arg ⟨x, y⟩⟩ : TMath ℝ) ((exMotherX ℝ).rotZ (Real.cos (1 : ℝ)) (Real.sin (1 : ℝ)))
        ((exPionDown ℝ).rotZ (Real.cos (1 : ℝ)) (Real.sin (1 : ℝ)))).cosThetaStarHelicity =
      (genObs (⟨Real.sqrt, Real.arccos, fun y x => Complex.arg ⟨x, y⟩⟩ : TMath ℝ) (exMotherX ℝ) (exPionDown ℝ)).cosThetaStarHelicity ∧
    (genObs (⟨Real.sqrt, Real.arccos, fun y x => Complex.arg ⟨x, y⟩⟩ : TMath ℝ) ((exMotherX ℝ).rotZ (Real.cos (1 : ℝ)) (Real.sin (1 : ℝ)))
        ((exPionDown ℝ).rotZ (Real.cos (1 : ℝ)) (Real.sin (1 : ℝ)))).thetaStarBeam =
      (genObs (⟨Real.sqrt, Real.arccos, fun y x => Complex.arg ⟨x, y⟩⟩ : TMath ℝ) (exMotherX ℝ) (exPionDown ℝ)).thetaStarBeam) ∧
    ((genThreeVecPiCM (⟨Real.sqrt, Real.arccos, fun y x => Complex.arg ⟨x, y⟩⟩ : TMath ℝ) (exMotherX ℝ) (exPionDown ℝ)).X ≠ 0 ∨ (genThreeVecPiCM (⟨Real.sqrt, Real.arccos, fun y x => Complex.arg ⟨x, y⟩⟩ : TMath ℝ) (exMotherX ℝ) (exPionDown ℝ)).Y ≠ 0 →
      ∃ k : ℤ,
        (genObs (⟨Real.sqrt, Real.arccos, fun y x => Complex.arg ⟨x, y⟩⟩ : TMath ℝ) ((exMotherX ℝ).rotZ (Real.cos (1 : ℝ)) (Real.sin (1 : ℝ)))
          ((exPionDown ℝ).rotZ (Real.cos (1 : ℝ)) (Real.sin (1 : ℝ)))).phiStarBeam =
        (genObs (⟨Real.sqrt, Real.arccos, fun y x => Complex.arg ⟨x, y⟩⟩ : TMath ℝ) (exMotherX ℝ) (exPionDown ℝ)).phiStarBeam + (1 : ℝ) + 2 * Real.pi * k) ∧
    ((genThreeVecPiCM (⟨Real.sqrt, Real.arccos, fun y x => Complex.arg ⟨x, y⟩⟩ : TMath ℝ) (exMotherX ℝ) (exPionDown ℝ)).X ≠ 0 ∨ (genThreeVecPiCM (⟨Real.sqrt, Real.arccos, fun y x => Complex.arg ⟨x, y⟩⟩ : TMath ℝ) (exMotherX ℝ) (exPionDown ℝ)).Y ≠ 0 →
      (∀ n : ℤ, (1 : ℝ) ≠ 2 * Real.pi * n) →
      (genObs (⟨Real.sqrt, Real.arccos, fun y x => Complex.arg ⟨x, y⟩⟩ : TMath ℝ) ((exMotherX ℝ).rotZ (Real.cos (1 : ℝ)) (Real.sin (1 : ℝ)))
          ((exPionDown ℝ).rotZ (Real.cos (1 : ℝ)) (Real.sin (1 : ℝ)))).phiStarBeam ≠
        (genObs (⟨Real.sqrt, Real.arccos, fun y x => Complex.arg ⟨x, y⟩⟩ : TMath ℝ) (exMotherX ℝ) (exPionDown ℝ)).phiStarBeam) ∧
    ((genThreeVecPiCM (⟨Real.sqrt, Real.arccos, fun y x => Complex.arg ⟨x, y⟩⟩ : TMath ℝ) (exMotherX ℝ) (exPionDown ℝ)).X = 0 → (genThreeVecPiCM (⟨Real.sqrt, Real.arccos, fun y x => Complex.arg ⟨x, y⟩⟩ : TMath ℝ) (exMotherX ℝ) (exPionDown ℝ)).Y = 0 →
      (genObs (⟨Real.sqrt, Real.arccos, fun y x => Complex.arg ⟨x, y⟩⟩ : TMath ℝ) ((exMotherX ℝ).rotZ (Real.cos (1 : ℝ)) (Real.sin (1 : ℝ)))
          ((exPionDown ℝ).rotZ (Real.cos (1 : ℝ)) (Real.sin (1 : ℝ)))).phiStarBeam = 0 ∧
      (genObs (⟨Real.sqrt, Real.arccos, fun y x => Complex.arg ⟨x, y⟩⟩ : TMath ℝ) (exMotherX ℝ) (exPionDown ℝ)).phiStarBeam = 0)) :=
  ⟨rfl, C12_rotation_about_beam _ rfl (exMotherX ℝ) (exPionDown ℝ) 1⟩

/-- With the exact square root, the probe vector of `exMotherX` and `exPionComoving` has no
transverse part: in the rest frame of the mother the daughter moves along the z axis. -/
theorem exMotherX_probe_transverse (M : TMath ℝ) (hS : M.Sqrt = Real.sqrt) :
    (genThreeVecPiCM M (exMotherX ℝ) (exPionComoving ℝ)).X = 0 ∧
    (genThreeVecPiCM M (exMotherX ℝ) (exPionComoving ℝ)).Y = 0 := by
  have h25 : Real.sqrt 25 = 5 := by
    rw [show (25 : ℝ) = 5 * 5 by norm_num]
    exact Real.sqrt_mul_self (by norm_num)
  have h1625 : Real.sqrt (16 / 25) = 4 / 5 := by
    rw [show (16 / 25 : ℝ) = 4 / 5 * (4 / 5) by norm_num]
    exact Real.sqrt_mul_self (by norm_num)
  have h2516 : Real.sqrt (25 / 16) = 5 / 4 := by
    rw [show (25 / 16 : ℝ) = 5 / 4 * (5 / 4) by norm_num]
    exact Real.sqrt_mul_self (by norm_num)
  constructor
  · norm_num [genThreeVecPiCM, Boost, PxPyPzMVector.BoostToCM, PxPyPzMVector.E,
      PxPyPzMVector.E2, PxPyPzMVector.P2, PxPyPzMVector.M2, PxPyPzEVector.toM,
      PxPyPzMVector.Vect, exMotherX, exPionComoving, hS, h25, h1625, h2516]
  · unfold genThreeVecPiCM
    rw [Boost_Vect_Y_of_Y_zero _ _ _ (BoostToCM_Y_of_Py_zero M _ (by simp [exMotherX]))]
    simp [exPionComoving]

/-- C12 fails as stated: `exMotherX` has positive pT and mass, the probe vector of its
daughter `exPionComoving` has no transverse part, and `phiStarBeam` is 0 both before and
after the rotation of the two lab momenta by `π`, so it is not shifted by `π` modulo
`2π`. -/
theorem C12_counterexample :
    0 < Pt (⟨Real.sqrt, Real.arccos, fun y x => Complex.arg ⟨x, y⟩⟩ : TMath ℝ) (exMotherX ℝ).Px (exMotherX ℝ).Py ∧
    0 < (exMotherX ℝ).M ∧
    (genObs (⟨Real.sqrt, Real.arccos, fun y x => Complex.arg ⟨x, y⟩⟩ : TMath ℝ)
        (exMotherX ℝ) (exPionComoving ℝ)).phiStarBeam = 0 ∧
    (genObs (⟨Real.sqrt, Real.arccos, fun y x => Complex.arg ⟨x, y⟩⟩ : TMath ℝ)
        ((exMotherX ℝ).rotZ (Real.cos Real.pi) (Real.sin Real.pi))
        ((exPionComoving ℝ).rotZ (Real.cos Real.pi) (Real.sin Real.pi))).phiStarBeam = 0 ∧
    (∀ k : ℤ, (genObs (⟨Real.sqrt, Real.arccos, fun y x => Complex.arg ⟨x, y⟩⟩ : TMath ℝ)
        ((exMotherX ℝ).rotZ (Real.cos Real.pi) (Real.sin Real.pi))
        ((exPionComoving ℝ).rotZ (Real.cos Real.pi) (Real.sin Real.pi))).phiStarBeam ≠
      (genObs (⟨Real.sqrt, Real.arccos, fun y x => Complex.arg ⟨x, y⟩⟩ : TMath ℝ)
        (exMotherX ℝ) (exPionComoving ℝ)).phiStarBeam + Real.pi + 2 * Real.pi * k) := by
  have hcs : Real.cos Real.pi * Real.cos Real.pi + Real.sin Real.pi * Real.sin Real.pi = 1 := by
    rw [← sq, ← sq]
    exact Real.cos_sq_add_sin_sq Real.pi
  obtain ⟨hx, hy⟩ := exMotherX_probe_transverse
    ⟨Real.sqrt, Real.arccos, fun y x => Complex.arg ⟨x, y⟩⟩ rfl
  have h0 : (⟨0, 0⟩ : ℂ) = 0 := Complex.ext rfl rfl
  have hori : (genObs (⟨Real.sqrt, Real.arccos, fun y x => Complex.arg ⟨x, y⟩⟩ : TMath ℝ)
        (exMotherX ℝ) (exPionComoving ℝ)).phiStarBeam = 0 := by
    have e : (genObs (⟨Real.sqrt, Real.arccos, fun y x => Complex.arg ⟨x, y⟩⟩ : TMath ℝ)
        (exMotherX ℝ) (exPionComoving ℝ)).phiStarBeam =
        Complex.arg ⟨(genThreeVecPiCM (⟨Real.sqrt, Real.arccos, fun y x => Complex.arg ⟨x, y⟩⟩ : TMath ℝ)
          (exMotherX ℝ) (exPionComoving ℝ)).X, (genThreeVecPiCM (⟨Real.sqrt, Real.arccos, fun y x => Complex.arg ⟨x, y⟩⟩ : TMath ℝ)
          (exMotherX ℝ) (exPionComoving ℝ)).Y⟩ := rfl
    rw [e, hx, hy, h0, Complex.arg_zero]
  have hrot : (genObs (⟨Real.sqrt, Real.arccos, fun y x => Complex.arg ⟨x, y⟩⟩ : TMath ℝ)
        ((exMotherX ℝ).rotZ (Real.cos Real.pi) (Real.sin Real.pi))
        ((exPionComoving ℝ).rotZ (Real.cos Real.pi) (Real.sin Real.pi))).phiStarBeam = 0 := by
    rw [(genObs_rotZ _ _ _ hcs _ _).2.2.2.2]
    simp only [phiStar, XYZVector.rotZ, hx, hy, mul_zero, sub_zero, add_zero, h0,
      Complex.arg_zero]
  refine ⟨?_, ?_, hori, hrot, fun k hk => ?_⟩
  · exact Real.sqrt_pos.mpr (by norm_num [exMotherX])
  · norm_num [exMotherX]
  · rw [hori, hrot] at hk
    have hpi := Real.pi_pos
    have h1 : Real.pi * (1 + 2 * (k : ℝ)) = 0 := by linarith
    rcases mul_eq_zero.mp h1 with h | h
    · exact hpi.ne.symm h
    · have h2 : (1 + 2 * k : ℤ) = 0 := by exact_mod_cast h
      omega

/-! ## Rotation about the beam axis on the reconstruction path -/

section RecoRotation

variable {K : Type} [LinearOrderedField K]

theorem PxPyPzMVector.add_rotZ (tm : TMath K) (c s : K) (hcs : c * c + s * s = 1)
    (a b : PxPyPzMVector K) :
    (a.rotZ c s).add tm (b.rotZ c s) = (a.add tm b).rotZ c s := by
  have hm2 : ∀ e : K,
      e * e - (c * a.Px - s * a.Py + (c * b.Px - s * b.Py)) *
          (c * a.Px - s * a.Py + (c * b.Px - s * b.Py)) -
        (s * a.Px + c * a.Py + (s * b.Px + c * b.Py)) *
          (s * a.Px + c * a.Py + (s * b.Px + c * b.Py)) - (a.Pz + b.Pz) * (a.Pz + b.Pz) =
      e * e - (a.Px + b.Px) * (a.Px + b.Px) - (a.Py + b.Py) * (a.Py + b.Py) -
        (a.Pz + b.Pz) * (a.Pz + b.Pz) := by
    intro e
    linear_combination
      (-((a.Px + b.Px) * (a.Px + b.Px)) - (a.Py + b.Py) * (a.Py + b.Py)) * hcs
  simp only [PxPyPzMVector.add, PxPyPzEVector.toM, PxPyPzMVector.rotZ_E tm c s hcs]
  simp only [PxPyPzMVector.rotZ, hm2, PxPyPzMVector.mk.injEq]
  refine ⟨by ring, by ring, trivial, trivial⟩

theorem recoThreeVecPiCM_rotZ (M : TMath K) (T : Task K) (c s : K)
    (hcs : c * c + s * s = 1) (cand : Cand K) :
    recoThreeVecPiCM M T (cand.rotZ c s) = (recoThreeVecPiCM M T cand).rotZ c s := by
  have h := Boost_rotZ M c s hcs
    (((⟨cand.piPx, cand.piPy, cand.piPz, T.massPi⟩ : PxPyPzMVector K).add M
      ⟨cand.d0Px, cand.d0Py, cand.d0Pz, T.massD0⟩).BoostToCM M)
    ⟨cand.piPx, cand.piPy, cand.piPz, T.massPi⟩
  rw [← PxPyPzMVector.rotZ_BoostToCM M c s hcs, ← PxPyPzMVector.add_rotZ M c s hcs] at h
  exact h

/-- The cosines and the polar angle of a candidate are unchanged when the candidate, its
soft pion and its two-body daughter are rotated about the z axis, and the azimuthal angle
is the one of the rotated probe vector. -/
theorem recoObs_rotZ (M : TMath K) (T : Task K) (c s : K) (hcs : c * c + s * s = 1)
    (cand : Cand K) :
    (recoObs M T (cand.rotZ c s)).cosThetaStarBeam = (recoObs M T cand).cosThetaStarBeam ∧
    (recoObs M T (cand.rotZ c s)).cosThetaStarProd = (recoObs M T cand).cosThetaStarProd ∧
    (recoObs M T (cand.rotZ c s)).cosThetaStarHelicity =
      (recoObs M T cand).cosThetaStarHelicity ∧
    (recoObs M T (cand.rotZ c s)).thetaStarBeam = (recoObs M T cand).thetaStarBeam ∧
    (recoObs M T (cand.rotZ c s)).phiStarBeam =
      phiStar M ((recoThreeVecPiCM M T cand).rotZ c s) := by
  have hPx : (cand.rotZ c s).Px = c * cand.Px - s * cand.Py := rfl
  have hPy : (cand.rotZ c s).Py = s * cand.Px + c * cand.Py := rfl
  have hPz : (cand.rotZ c s).Pz = cand.Pz := rfl
  simp only [recoObs, angularObs, hPx, hPy, hPz, recoThreeVecPiCM_rotZ M T c s hcs,
    Pt_rotZ M c s hcs, P_rotZ M c s hcs, normalVec_rotZ, helicityVec_rotZ,
    cosThetaStar_rotZ M c s hcs, cosThetaStar_beam_rotZ M c s hcs,
    thetaStar_beam_rotZ M c s hcs, and_self]

end RecoRotation

end DstarPolarization
